import Mathlib

/-!
Verification development for the spf5000es-server gateway (src/growatt.py).

The development shallowly embeds the register codec, the holding/input
register catalogs, the write-queue drain loop, and the HTTP gateway of
`growatt.py`.  Python machine integers are modelled as `Int`/`Nat` (Python
ints are unbounded, register words are naturals below 2^16), Python `bytes`
as `List Nat` of values below 256, fallible Python code as `Except PyExc`.
Python floats only ever arise from exact divisions by 10/100/2 of integers
in this code base, so they are modelled as rationals.
-/

deriving instance DecidableEq for Except

namespace Growatt

/-- Python exceptions that the embedded code can raise.  `unmodeled` marks
inputs that fall outside the fragment modelled here (non-ASCII UTF-8 decode);
no theorem below depends on it. -/
inductive PyExc where
  | keyError (msg : String)
  | valueError (msg : String)
  | overflowError
  | typeError
  | attributeError
  | indexError
  | binasciiError
  | unicodeDecodeError
  | modbusError (msg : String)
  | unmodeled (what : String)
deriving DecidableEq, Repr

/-- Python values flowing through the codec: ints, bools, strings and floats
(floats modelled as rationals; all float arithmetic in the source is exact
division of integers by 10/100/2). -/
inductive PyVal where
  | intV (n : Int)
  | boolV (b : Bool)
  | strV (s : String)
  | ratV (q : ℚ)
deriving DecidableEq, Repr

/-- The numeric view Python's `==` takes of a value (`bool` is an `int`
subtype with `True == 1`, `False == 0`); strings are not numeric. -/
def pyNum : PyVal → Option ℚ
  | .intV n => some (n : ℚ)
  | .boolV b => some (if b then 1 else 0)
  | .ratV q => some q
  | .strV _ => none

/-- Python `==` on the modelled values: numeric values compare as numbers
across types, strings compare as strings, strings never equal numbers. -/
def pyEqb (a b : PyVal) : Bool :=
  match pyNum a, pyNum b with
  | some x, some y => x = y
  | _, _ =>
    match a, b with
    | .strV s, .strV t => s = t
    | _, _ => false

/-- Register types, from `class RegType(Enum)`. -/
inductive RegType where
  | UINT
  | INT
  | CHAR
deriving DecidableEq, Repr

/-- `GrowattInverter.registers_to_bytes`: each register contributes the pair
`[r >> 8, r & 0xFF]`, concatenated (registers are 16-bit words, so `r >> 8`
is already below 256). Out-of-range indexing is modelled by `getD _ 0`; all
uses below stay in bounds. -/
def registers_to_bytes (registers : List Nat) (start length : Nat) : List Nat :=
  ((List.range length).map fun i =>
    [registers.getD (start + i) 0 / 256, registers.getD (start + i) 0 % 256]).flatten

/-- `GrowattInverter.bytes_to_registers`: `data[i] << 8 | data[i+1]` for even
`i`.  The source indexes `data[i+1]` unconditionally, so it is only called on
even-length byte strings; the stray odd tail case never arises below. -/
def bytes_to_registers : List Nat → List Nat
  | b1 :: b2 :: rest => (b1 * 256 + b2) :: bytes_to_registers rest
  | _ => []

/-- Big-endian base-256 digits of `u`, `n` bytes wide (the bytes produced by
Python's `int.to_bytes(n, "big")` once the value has been reduced to its
two's-complement residue). -/
def bigEndianBytes (u : Nat) : Nat → List Nat
  | 0 => []
  | n + 1 => u / 256 ^ n % 256 :: bigEndianBytes u n

/-- Python `int.to_bytes(len, "big", signed=signed)`: `none` models the
`OverflowError` raised when the value does not fit.  The signed bound check
is phrased with `2*v` so it is exact for every width including 0. -/
def int_to_bytes (v : Int) (len : Nat) (signed : Bool) : Option (List Nat) :=
  if (if signed then -(2 ^ (8 * len) : Int) ≤ 2 * v ∧ 2 * v < 2 ^ (8 * len)
      else 0 ≤ v ∧ v < 2 ^ (8 * len)) then
    some (bigEndianBytes (v.emod (2 ^ (8 * len))).toNat len)
  else none

/-- The unsigned integer denoted by a big-endian byte string
(`int.from_bytes(data, "big")`). -/
def unsignedVal : List Nat → Nat
  | [] => 0
  | b :: rest => b * 256 ^ rest.length + unsignedVal rest

/-- Python `int.from_bytes(data, "big", signed=signed)`; the signed branch
reinterprets the top bit as a two's-complement sign. -/
def int_from_bytes (data : List Nat) (signed : Bool) : Int :=
  let u := unsignedVal data
  if signed ∧ 2 * u ≥ 2 ^ (8 * data.length) then (u : Int) - 2 ^ (8 * data.length)
  else (u : Int)

/-- `GrowattInverter.combine_registers`. -/
def combine_registers (registers : List Nat) (start length : Nat) (signed : Bool) : Int :=
  int_from_bytes (registers_to_bytes registers start length) signed

/-- `GrowattInverter.uncombine_registers`; `none` models the uncaught
`OverflowError` from `to_bytes` on out-of-range values. -/
def uncombine_registers (value : Int) (length : Nat) (signed : Bool) : Option (List Nat) :=
  (int_to_bytes value (length * 2) signed).map bytes_to_registers

/-! ### Basic facts about the byte/word conversions -/

theorem bigEndianBytes_length (u n : Nat) : (bigEndianBytes u n).length = n := by
  induction n with
  | zero => rfl
  | succ n ih => simp [bigEndianBytes, ih]

theorem bigEndianBytes_lt (u n : Nat) : ∀ b ∈ bigEndianBytes u n, b < 256 := by
  induction n with
  | zero => simp [bigEndianBytes]
  | succ n ih =>
    intro b hb
    rcases List.mem_cons.mp hb with h | h
    · exact h ▸ Nat.mod_lt _ (by norm_num)
    · exact ih b h

theorem unsignedVal_bigEndianBytes (u n : Nat) :
    unsignedVal (bigEndianBytes u n) = u % 256 ^ n := by
  induction n with
  | zero => simp [bigEndianBytes, unsignedVal, Nat.mod_one]
  | succ n ih =>
    have hlen : (bigEndianBytes u n).length = n := bigEndianBytes_length u n
    have hmul : u % 256 ^ (n + 1) = u % 256 ^ n + 256 ^ n * (u / 256 ^ n % 256) := by
      rw [pow_succ, Nat.mod_mul]
    simp [bigEndianBytes, unsignedVal, hlen, ih, hmul]
    ring

theorem registers_to_bytes_nil_len (regs : List Nat) (start : Nat) :
    registers_to_bytes regs start 0 = [] := by
  simp [registers_to_bytes]

theorem registers_to_bytes_cons (w : Nat) (ws : List Nat) (k : Nat) :
    registers_to_bytes (w :: ws) 0 (k + 1) =
      w / 256 :: w % 256 :: registers_to_bytes ws 0 k := by
  simp only [registers_to_bytes, List.range_succ_eq_map, List.map_cons, List.map_map]
  simp [Function.comp_def]

theorem bytes_to_registers_length (data : List Nat) :
    (bytes_to_registers data).length = data.length / 2 := by
  induction data using bytes_to_registers.induct with
  | case1 b1 b2 rest ih =>
    simp [bytes_to_registers, ih]
    omega
  | case2 l h =>
    match l, h with
    | [], _ => rfl
    | [b], _ => simp [bytes_to_registers]
    | b1 :: b2 :: rest, h => exact absurd rfl (h b1 b2 rest)

theorem bytes_to_registers_lt (data : List Nat) (h : ∀ b ∈ data, b < 256) :
    ∀ w ∈ bytes_to_registers data, w < 65536 := by
  induction data using bytes_to_registers.induct with
  | case1 b1 b2 rest ih =>
    intro w hw
    rcases List.mem_cons.mp hw with hh | hh
    · have h1 := h b1 (by simp)
      have h2 := h b2 (by simp)
      omega
    · exact ih (fun b hb => h b (by simp [hb])) w hh
  | case2 l hl =>
    match l, hl with
    | [], _ => simp [bytes_to_registers]
    | [b], _ => simp [bytes_to_registers]
    | b1 :: b2 :: rest, hl => exact absurd rfl (hl b1 b2 rest)

theorem registers_to_bytes_bytes_to_registers (data : List Nat)
    (hb : ∀ b ∈ data, b < 256) (he : data.length % 2 = 0) :
    registers_to_bytes (bytes_to_registers data) 0 (data.length / 2) = data := by
  induction data using bytes_to_registers.induct with
  | case1 b1 b2 rest ih =>
    have h1 := hb b1 (by simp)
    have h2 := hb b2 (by simp)
    have hlen : (b1 :: b2 :: rest).length / 2 = rest.length / 2 + 1 := by
      simp; omega
    rw [hlen, bytes_to_registers, registers_to_bytes_cons]
    have hdiv : (b1 * 256 + b2) / 256 = b1 := by omega
    have hmod : (b1 * 256 + b2) % 256 = b2 := by omega
    rw [hdiv, hmod, ih (fun b h => hb b (by simp [h])) (by simp at he ⊢; omega)]
  | case2 l hl =>
    match l, hl with
    | [], _ => rfl
    | [b], _ => simp at he
    | b1 :: b2 :: rest, hl => exact absurd rfl (hl b1 b2 rest)

/-- Core round-trip fact: splitting an in-range value into registers and
recombining with the same width and signedness restores the value.  The
range condition is exactly the one under which `to_bytes` does not raise. -/
theorem uncombine_combine_spec (v : Int) (n : Nat) (s : Bool)
    (hv : if s then -(2 ^ (16 * n) : Int) ≤ 2 * v ∧ 2 * v < 2 ^ (16 * n)
          else 0 ≤ v ∧ v < 2 ^ (16 * n)) :
    ∃ ws, uncombine_registers v n s = some ws ∧ ws.length = n ∧
      (∀ w ∈ ws, w < 65536) ∧ combine_registers ws 0 n s = v := by
  have hexp : 8 * (n * 2) = 16 * n := by ring
  have hbase : (2 : Nat) ^ (16 * n) = 256 ^ (n * 2) := by
    rw [show (256 : Nat) = 2 ^ 8 from rfl, ← pow_mul, hexp]
  have hbaseZ : (2 : Int) ^ (16 * n) = 256 ^ (n * 2) := by
    rw [show (256 : Int) = 2 ^ 8 from rfl, ← pow_mul, hexp]
  -- the guard in `int_to_bytes` holds
  have hguard : (if s then -(2 ^ (8 * (n * 2)) : Int) ≤ 2 * v ∧ 2 * v < 2 ^ (8 * (n * 2))
      else 0 ≤ v ∧ v < 2 ^ (8 * (n * 2))) := by
    rw [hexp]; exact hv
  set M : Int := 2 ^ (16 * n) with hM
  have hMpos : 0 < M := by positivity
  -- the two's-complement residue and its recovery
  have hrange : 0 ≤ v.emod M ∧ v.emod M < M :=
    ⟨Int.emod_nonneg v (ne_of_gt hMpos), Int.emod_lt_of_pos v hMpos⟩
  set u : Nat := (v.emod M).toNat with hu
  have huM : (u : Int) = v.emod M := Int.toNat_of_nonneg hrange.1
  have hMn : ((2 ^ (16 * n) : Nat) : Int) = M := by
    rw [hM]; push_cast; ring
  have huMlt : u < 2 ^ (16 * n) := by
    have h2 : (u : Int) < ((2 ^ (16 * n) : Nat) : Int) := by
      rw [hMn, huM]; exact hrange.2
    exact_mod_cast h2
  refine ⟨bytes_to_registers (bigEndianBytes u (n * 2)), ?_, ?_, ?_, ?_⟩
  · simp only [uncombine_registers, int_to_bytes, if_pos hguard, Option.map_some]
    rw [hexp]
    rfl
  · rw [bytes_to_registers_length, bigEndianBytes_length]; omega
  · exact bytes_to_registers_lt _ (bigEndianBytes_lt u (n * 2))
  · have hdata := registers_to_bytes_bytes_to_registers (bigEndianBytes u (n * 2))
      (bigEndianBytes_lt u (n * 2))
      (by rw [bigEndianBytes_length]; omega)
    rw [bigEndianBytes_length] at hdata
    have hn2 : n * 2 / 2 = n := by omega
    rw [hn2] at hdata
    rw [combine_registers, hdata, int_from_bytes]
    have hulen : (bigEndianBytes u (n * 2)).length = n * 2 := bigEndianBytes_length u (n * 2)
    have huval : unsignedVal (bigEndianBytes u (n * 2)) = u := by
      rw [unsignedVal_bigEndianBytes]
      exact Nat.mod_eq_of_lt (by rw [← hbase]; exact huMlt)
    rw [hulen, huval, hexp]
    -- now discharge the sign reinterpretation arithmetically
    cases s with
    | false =>
      simp only [if_neg (by simp : ¬ (false = true))] at hv
      rcases hv with ⟨hlo, hhi⟩
      have hviM : v < M := by rw [hM]; exact hhi
      have hvm : v.emod M = v := Int.emod_eq_of_lt hlo hviM
      have huv : (u : Int) = v := by rw [huM, hvm]
      simp only [Bool.false_eq_true, false_and, if_false]
      exact huv
    | true =>
      simp only [if_pos rfl] at hv
      have hlo : -M ≤ 2 * v := hv.1
      have hhi : 2 * v < M := hv.2
      by_cases hneg : v < 0
      · have hvm : v.emod M = v + M := by
          have h1 : (v + M * 1).emod M = v.emod M := Int.add_mul_emod_self_left v M 1
          have h2 : (v + M).emod M = v + M := Int.emod_eq_of_lt (by omega) (by omega)
          calc v.emod M = (v + M * 1).emod M := h1.symm
            _ = (v + M).emod M := by ring_nf
            _ = v + M := h2
        have huv : (u : Int) = v + M := by rw [huM, hvm]
        have hcond : 2 * u ≥ 2 ^ (16 * n) := by
          have h3 : ((2 ^ (16 * n) : Nat) : Int) ≤ 2 * (u : Int) := by omega
          exact_mod_cast h3
        rw [if_pos ⟨rfl, hcond⟩]
        rw [← hMn] at *
        push_cast at huv ⊢
        omega
      · push_neg at hneg
        have hviM : v < M := by omega
        have hvm : v.emod M = v := Int.emod_eq_of_lt hneg hviM
        have huv : (u : Int) = v := by rw [huM, hvm]
        have hcond : ¬ (2 * u ≥ 2 ^ (16 * n)) := by
          intro hcon
          have h3 : ((2 ^ (16 * n) : Nat) : Int) ≤ 2 * (u : Int) := by exact_mod_cast hcon
          omega
        rw [if_neg (by intro hcon; exact hcond hcon.2)]
        exact huv

/-! ### Python value coercions used by the register tables -/

/-- ASCII `str.lower()` (the strings compared in this code base are ASCII). -/
def str_lower (s : String) : String :=
  String.mk (s.data.map (fun c =>
    if 65 ≤ c.toNat ∧ c.toNat ≤ 90 then Char.ofNat (c.toNat + 32) else c))

/-- ASCII `str.upper()`. -/
def str_upper (s : String) : String :=
  String.mk (s.data.map (fun c =>
    if 97 ≤ c.toNat ∧ c.toNat ≤ 122 then Char.ofNat (c.toNat - 32) else c))

/-- `str2bool` from the source: bools/ints coerce by truthiness, recognised
strings map to their boolean, other strings raise `ValueError`; a float has
no `.lower()` so it raises `AttributeError` (uncaught in the source). -/
def str2bool : PyVal → Except PyExc Bool
  | .boolV b => .ok b
  | .intV n => .ok (n != 0)
  | .ratV _ => .error .attributeError
  | .strV s =>
    if str_lower s ∈ [("yes"), ("true"), ("t"), ("1")] then .ok true
    else if str_lower s ∈ [("no"), ("false"), ("f"), ("0")] then .ok false
    else .error (.valueError ("Boolean value expected"))

/-- Decimal digits to a natural number; `none` when empty or non-digit. -/
def digitsToNat (cs : List Char) : Option Nat :=
  if cs ≠ [] ∧ cs.all (fun c => c.isDigit) then
    some (cs.foldl (fun a c => a * 10 + (c.toNat - 48)) 0)
  else none

/-- A simple model of Python `int(<str>)`: optional sign then digits. -/
def parse_int (s : String) : Option Int :=
  match s.data with
  | '-' :: rest => (digitsToNat rest).map (fun n => -(n : Int))
  | '+' :: rest => (digitsToNat rest).map (fun n => (n : Int))
  | cs => (digitsToNat cs).map (fun n => (n : Int))

/-- Python `int(x)`: identity on ints, 0/1 on bools, truncation toward zero
on floats, decimal parse on strings (`ValueError` on failure). -/
def pyInt : PyVal → Except PyExc Int
  | .intV n => .ok n
  | .boolV b => .ok (if b then 1 else 0)
  | .ratV q => .ok (if 0 ≤ q then q.floor else -((-q).floor))
  | .strV s =>
    match parse_int s with
    | some n => .ok n
    | none => .error (.valueError ("invalid literal for int() with base 10"))

/-- Python `str(x)` as used by the tables.  Only the string case is exercised
by any theorem below; the float repr is not modelled exactly. -/
def pyStr : PyVal → String
  | .strV s => s
  | .intV n => toString n
  | .boolV b => if b then ("True") else ("False")
  | .ratV q => toString q

/-! ### The declarative transform language of the register tables

Each `PostProcess` / `WritePreProcess` slot in the source tables holds one of
a handful of lambda shapes; they are represented as first-order data with an
interpreter, so the catalogs are plain data and per-entry statements are
decidable. -/

/-- Read-side transforms appearing in the tables: `int`, `bool`, `str`,
`lambda x: x / d`, and `lambda x: TableR[x]`. -/
inductive ReadPost where
  | toInt
  | toBool
  | toStr
  | divBy (d : Nat)
  | enumLookup (table : List (Int × PyVal))
deriving DecidableEq, Repr

/-- Write-side transforms appearing in the tables: `int`, `str`,
`str2bool2int`, `lambda x: int(x) * m`, `lambda x: TableW[x]`, and
OverTempRestart's `lambda x: OverTempRestartW[str2bool(x)]`. -/
inductive WritePre where
  | toInt
  | toStr
  | str2boolInt
  | intTimes (m : Nat)
  | enumLookupW (table : List (PyVal × Int))
  | overTempW
deriving DecidableEq, Repr

/-- Python dict lookup `TableR[k]` (int keys); `KeyError` when absent. -/
def dictLookupR (t : List (Int × PyVal)) (k : Int) : Except PyExc PyVal :=
  match t.find? (fun p => p.1 == k) with
  | some p => .ok p.2
  | none => .error (.keyError (toString k))

/-- Python dict lookup `TableW[k]`; key comparison follows Python `==`. -/
def dictLookupW (t : List (PyVal × Int)) (k : PyVal) : Except PyExc Int :=
  match t.find? (fun p => pyEqb p.1 k) with
  | some p => .ok p.2
  | none => .error (.keyError ("key"))

/-! ### Enumeration tables (source lines 57-171) -/

def SystemStatusR : List (Int × PyVal) := [
  (0, .strV ("Standby")),
  (1, .strV ("PV&Grid Supporting Loads")),
  (2, .strV ("Battery Discharging")),
  (3, .strV ("Fault")),
  (4, .strV ("Flash")),
  (5, .strV ("PV Charging")),
  (6, .strV ("Grid Charging")),
  (7, .strV ("PV&Grid Charging")),
  (8, .strV ("PV&Grid Charging+Grid Bypass")),
  (9, .strV ("PV Charging+Grid Bypass")),
  (10, .strV ("Grid Charging+Grid Bypass")),
  (11, .strV ("Grid Bypass")),
  (12, .strV ("PV Charging+Loads Supporting")),
  (13, .strV ("Export to Grid"))]

def OutputConfigR : List (Int × PyVal) :=
  [(0, .strV ("SBU")), (1, .strV ("SOL")), (2, .strV ("UTI")), (3, .strV ("SUB"))]

/-- `{v: k for k, v in OutputConfigR.items()}`. -/
def OutputConfigW : List (PyVal × Int) := OutputConfigR.map (fun p => (p.2, p.1))

def ChargeConfigR : List (Int × PyVal) :=
  [(0, .strV ("PV First")), (1, .strV ("PV&UTI")), (2, .strV ("PV Only"))]

def ChargeConfigW : List (PyVal × Int) := ChargeConfigR.map (fun p => (p.2, p.1))

def PVModelR : List (Int × PyVal) :=
  [(0, .strV ("Independent")), (1, .strV ("Parallel"))]

def PVModelW : List (PyVal × Int) := PVModelR.map (fun p => (p.2, p.1))

def ACInModelR : List (Int × PyVal) :=
  [(0, .strV ("APL")), (1, .strV ("UPS")), (2, .strV ("GEN"))]

def ACInModelW : List (PyVal × Int) := ACInModelR.map (fun p => (p.2, p.1))

def OutputVoltTypeR : List (Int × PyVal) := [
  (0, .strV ("208VAC")),
  (1, .strV ("230VAC")),
  (2, .strV ("240VAC")),
  (3, .strV ("220VAC")),
  (4, .strV ("100VAC")),
  (5, .strV ("110VAC")),
  (6, .strV ("120VAC"))]

def OutputVoltTypeW : List (PyVal × Int) := OutputVoltTypeR.map (fun p => (p.2, p.1))

def OutputFreqTypeR : List (Int × PyVal) :=
  [(0, .strV ("50Hz")), (1, .strV ("60Hz"))]

def OutputFreqTypeW : List (PyVal × Int) := OutputFreqTypeR.map (fun p => (p.2, p.1))

def OverLoadRestartR : List (Int × PyVal) :=
  [(0, .strV ("Yes")), (1, .strV ("No")), (2, .strV ("Switch to UTI"))]

def OverLoadRestartW : List (PyVal × Int) := OverLoadRestartR.map (fun p => (p.2, p.1))

def OverTempRestartR : List (Int × PyVal) :=
  [(0, .boolV true), (1, .boolV false)]

def OverTempRestartW : List (PyVal × Int) := OverTempRestartR.map (fun p => (p.2, p.1))

def BatteryTypeR : List (Int × PyVal) := [
  (0, .strV ("AGM")), (1, .strV ("FLD")), (2, .strV ("USE")),
  (3, .strV ("Lithium")), (4, .strV ("USE2"))]

def BatteryTypeW : List (PyVal × Int) := BatteryTypeR.map (fun p => (p.2, p.1))

def AgingModeR : List (Int × PyVal) :=
  [(0, .strV ("Normal")), (1, .strV ("Aging"))]

def AgingModeW : List (PyVal × Int) := AgingModeR.map (fun p => (p.2, p.1))

def SafetyTypeR : List (Int × PyVal) := [
  (1, .strV ("Standard")), (2, .strV ("ETL")), (3, .strV ("AS4777")),
  (4, .strV ("CQC")), (5, .strV ("VDE4105"))]

def SafetyTypeW : List (PyVal × Int) := SafetyTypeR.map (fun p => (p.2, p.1))

def OnOffR : List (Int × PyVal) :=
  [(0, .strV ("Output enable")), (256, .strV ("Output disable"))]

/-- Interpreter for the read-side transforms.  The wildcard `typeError` arm
is unreachable through the catalogs (numeric entries feed ints, char entries
feed strings). -/
def applyReadPost : ReadPost → PyVal → Except PyExc PyVal
  | .toInt, .intV n => .ok (.intV n)
  | .toBool, .intV n => .ok (.boolV (n != 0))
  | .toStr, .strV s => .ok (.strV s)
  | .divBy d, .intV n => .ok (.ratV ((n : ℚ) / (d : ℚ)))
  | .enumLookup t, .intV n => dictLookupR t n
  | _, _ => .error .typeError

/-- Interpreter for the write-side transforms. -/
def applyWritePre : WritePre → PyVal → Except PyExc PyVal
  | .toInt, v => (pyInt v).map .intV
  | .toStr, v => .ok (.strV (pyStr v))
  | .str2boolInt, v => (str2bool v).map (fun b => .intV (if b then 1 else 0))
  | .intTimes m, v => (pyInt v).map (fun n => .intV (n * (m : Int)))
  | .enumLookupW t, v => (dictLookupW t v).map .intV
  | .overTempW, v => do
    let b ← str2bool v
    (dictLookupW OverTempRestartW (.boolV b)).map .intV

/-- One row of `HoldingAndWriteRegisters`:
`(Start, Length, Type, ReadPostProcess, WritePreProcess or None)`. -/
structure RegEntry where
  start : Nat
  length : Nat
  type_ : RegType
  readpost : ReadPost
  writepre : Option WritePre
deriving DecidableEq, Repr

set_option maxHeartbeats 2000000 in
/-- The holding-register catalog, source lines 172-271 (commented-out rows
omitted, as in the source). -/
def HoldingAndWriteRegisters : List (String × RegEntry) := [
  ("OnOff", ⟨0, 1, .UINT, .enumLookup OnOffR, none⟩),
  ("OutputConfig", ⟨1, 1, .UINT, .enumLookup OutputConfigR, some (.enumLookupW OutputConfigW)⟩),
  ("ChargeConfig", ⟨2, 1, .UINT, .enumLookup ChargeConfigR, some (.enumLookupW ChargeConfigW)⟩),
  ("UtiOutStart", ⟨3, 1, .UINT, .toInt, some .toInt⟩),
  ("UtiOutEnd", ⟨4, 1, .UINT, .toInt, some .toInt⟩),
  ("UtiChargeStart", ⟨5, 1, .UINT, .toInt, some .toInt⟩),
  ("UtiChargeEnd", ⟨6, 1, .UINT, .toInt, some .toInt⟩),
  ("PVModel", ⟨7, 1, .UINT, .enumLookup PVModelR, some (.enumLookupW PVModelW)⟩),
  ("ACInModel", ⟨8, 1, .UINT, .enumLookup ACInModelR, some (.enumLookupW ACInModelW)⟩),
  ("FWVersion", ⟨9, 3, .CHAR, .toStr, none⟩),
  ("FWVersion2", ⟨12, 3, .CHAR, .toStr, none⟩),
  ("LCDLanguage", ⟨15, 1, .UINT, .toInt, some .toInt⟩),
  ("GridV_Adj", ⟨16, 1, .UINT, .toInt, none⟩),
  ("InvV_Adj", ⟨17, 1, .UINT, .toInt, none⟩),
  ("OutputVoltType", ⟨18, 1, .UINT, .enumLookup OutputVoltTypeR, some (.enumLookupW OutputVoltTypeW)⟩),
  ("OutputFreqType", ⟨19, 1, .UINT, .enumLookup OutputFreqTypeR, some (.enumLookupW OutputFreqTypeW)⟩),
  ("OverLoadRestart", ⟨20, 1, .UINT, .enumLookup OverLoadRestartR, some (.enumLookupW OverLoadRestartW)⟩),
  ("OverTempRestart", ⟨21, 1, .UINT, .enumLookup OverTempRestartR, some .overTempW⟩),
  ("BuzzerEnable", ⟨22, 1, .UINT, .toBool, some .str2boolInt⟩),
  ("SerialNumber", ⟨23, 5, .CHAR, .toStr, some .toStr⟩),
  ("MoudleH", ⟨28, 1, .UINT, .toInt, some .toInt⟩),
  ("MoudleL", ⟨29, 1, .UINT, .toInt, some .toInt⟩),
  ("ComAddress", ⟨30, 1, .UINT, .toInt, some .toInt⟩),
  ("FlashStart", ⟨31, 1, .UINT, .toInt, some .toInt⟩),
  ("ResetUserInfo", ⟨32, 1, .UINT, .toInt, some .toInt⟩),
  ("ResetToFactory", ⟨33, 1, .UINT, .toInt, some .toInt⟩),
  ("MaxChargeAmps", ⟨34, 1, .UINT, .toInt, some .toInt⟩),
  ("BulkChargeVolt", ⟨35, 1, .UINT, .divBy 10, some (.intTimes 10)⟩),
  ("FloatChargeVolt", ⟨36, 1, .UINT, .divBy 10, some (.intTimes 10)⟩),
  ("BatLowtoUti", ⟨37, 1, .UINT, .divBy 10, some (.intTimes 10)⟩),
  ("ACChargeAmps", ⟨38, 1, .UINT, .toInt, some .toInt⟩),
  ("BatteryType", ⟨39, 1, .UINT, .enumLookup BatteryTypeR, some (.enumLookupW BatteryTypeW)⟩),
  ("AgingMode", ⟨40, 1, .UINT, .enumLookup AgingModeR, some (.enumLookupW AgingModeW)⟩),
  ("FunctionMask", ⟨41, 1, .UINT, .toInt, some .toInt⟩),
  ("SafetyType", ⟨42, 1, .UINT, .enumLookup SafetyTypeR, some (.enumLookupW SafetyTypeW)⟩),
  ("DTC", ⟨43, 1, .UINT, .toInt, none⟩),
  ("SysYear", ⟨45, 1, .UINT, .toInt, some .toInt⟩),
  ("SysMonth", ⟨46, 1, .UINT, .toInt, some .toInt⟩),
  ("SysDay", ⟨47, 1, .UINT, .toInt, some .toInt⟩),
  ("SysHour", ⟨48, 1, .UINT, .toInt, some .toInt⟩),
  ("SysMin", ⟨49, 1, .UINT, .toInt, some .toInt⟩),
  ("SysSec", ⟨50, 1, .UINT, .toInt, some .toInt⟩),
  ("SysWeekly", ⟨72, 1, .UINT, .toInt, some .toInt⟩),
  ("ModbusVersion", ⟨73, 1, .UINT, .divBy 100, none⟩),
  ("SCC_ComMode", ⟨75, 1, .UINT, .toInt, none⟩),
  ("RateWatt", ⟨76, 2, .UINT, .divBy 10, none⟩),
  ("RateVA", ⟨78, 2, .UINT, .divBy 10, none⟩),
  ("ComboardVer", ⟨80, 1, .UINT, .toInt, none⟩),
  ("uwBatPieceNum", ⟨81, 1, .UINT, .toInt, some .toInt⟩),
  ("wBatLowCutOff", ⟨82, 1, .UINT, .divBy 10, none⟩),
  ("uwAC2BatVolt", ⟨95, 1, .UINT, .divBy 10, some (.intTimes 10)⟩),
  ("BypEnable", ⟨96, 1, .UINT, .toBool, some .str2boolInt⟩),
  ("PowSavingEnable", ⟨97, 1, .UINT, .toBool, some .str2boolInt⟩),
  ("SpowBalEnable", ⟨98, 1, .UINT, .toBool, some .str2boolInt⟩),
  ("ClrEnergyToday", ⟨99, 1, .UINT, .toBool, some .str2boolInt⟩),
  ("ClrEnergyAll", ⟨100, 1, .UINT, .toBool, some .str2boolInt⟩),
  ("BurnInTestEnable", ⟨101, 1, .UINT, .toBool, some .str2boolInt⟩),
  ("ManualStartEnable", ⟨102, 1, .UINT, .toBool, some .str2boolInt⟩),
  ("SciLossChkEnable", ⟨103, 1, .UINT, .toBool, some .str2boolInt⟩),
  ("BlightEnable", ⟨104, 1, .UINT, .toBool, some .str2boolInt⟩),
  ("ParaMaxChgAmps", ⟨105, 1, .UINT, .toInt, none⟩),
  ("LiProtocolType", ⟨106, 1, .UINT, .toInt, some .toInt⟩),
  ("AudioAlarmEnable", ⟨107, 1, .UINT, .toBool, some .str2boolInt⟩),
  ("uwEqEnable", ⟨108, 1, .UINT, .toBool, some .str2boolInt⟩),
  ("uwEqChgVolt", ⟨109, 1, .UINT, .toInt, some .toInt⟩),
  ("uwEqTime", ⟨110, 1, .UINT, .toInt, some .toInt⟩),
  ("uwEqTimeOut", ⟨111, 1, .UINT, .toInt, some .toInt⟩),
  ("uwEqInterval", ⟨112, 1, .UINT, .toInt, some .toInt⟩),
  ("uwMaxDisChgAmps", ⟨113, 1, .UINT, .toInt, some .toInt⟩),
  ("BLVersion2", ⟨162, 1, .UINT, .toInt, none⟩)]

/-- `HoldingAndWriteRegisters[key]` (Python dict indexing by exact string). -/
def holdingLookup (key : String) : Option RegEntry :=
  (HoldingAndWriteRegisters.find? (fun p => p.1 == key)).map (fun p => p.2)

/-- One row of `InputRegisters`: `(Start, Length, Type, PostProcess)`. -/
structure InputEntry where
  start : Nat
  length : Nat
  type_ : RegType
  readpost : ReadPost
deriving DecidableEq, Repr

/-- The input-register catalog, source lines 73-138. -/
def InputRegisters : List (String × InputEntry) := [
  ("SystemStatus", ⟨0, 1, .UINT, .enumLookup SystemStatusR⟩),
  ("PV1Volt", ⟨1, 1, .UINT, .divBy 10⟩),
  ("PV2Volt", ⟨2, 1, .UINT, .divBy 10⟩),
  ("PV1Watt", ⟨3, 2, .UINT, .divBy 10⟩),
  ("PV2Watt", ⟨5, 2, .UINT, .divBy 10⟩),
  ("PV1Amps", ⟨7, 1, .UINT, .divBy 10⟩),
  ("PV2Amps", ⟨8, 1, .UINT, .divBy 10⟩),
  ("OutputWatt", ⟨9, 2, .UINT, .divBy 10⟩),
  ("OutputVA", ⟨11, 2, .UINT, .divBy 10⟩),
  ("ACChrWatt", ⟨13, 2, .UINT, .divBy 10⟩),
  ("ACChrVA", ⟨15, 2, .UINT, .divBy 10⟩),
  ("BatteryVolt", ⟨17, 1, .UINT, .divBy 100⟩),
  ("BatterySOC", ⟨18, 1, .UINT, .toInt⟩),
  ("BusVolt", ⟨19, 1, .UINT, .divBy 10⟩),
  ("GridVolt", ⟨20, 1, .UINT, .divBy 10⟩),
  ("LineFreq", ⟨21, 1, .UINT, .divBy 100⟩),
  ("OutputACVolt", ⟨22, 1, .UINT, .divBy 10⟩),
  ("OutputACFreq", ⟨23, 1, .UINT, .divBy 100⟩),
  ("OutputDCVolt", ⟨24, 1, .UINT, .divBy 10⟩),
  ("InvTempC", ⟨25, 1, .INT, .divBy 10⟩),
  ("DCDCTempC", ⟨26, 1, .INT, .divBy 10⟩),
  ("LoadPercent", ⟨27, 1, .UINT, .divBy 10⟩),
  ("BatteryPortVolt", ⟨28, 1, .UINT, .divBy 100⟩),
  ("BatteryBusVolt", ⟨29, 1, .UINT, .divBy 100⟩),
  ("WorkTimeTotalSeconds", ⟨30, 2, .UINT, .divBy 2⟩),
  ("Buck1TempC", ⟨32, 1, .INT, .divBy 10⟩),
  ("Buck2TempC", ⟨33, 1, .INT, .divBy 10⟩),
  ("OutputAmps", ⟨34, 1, .UINT, .divBy 10⟩),
  ("InvAmps", ⟨35, 1, .UINT, .divBy 10⟩),
  ("ACInputWatt", ⟨36, 2, .INT, .divBy 10⟩),
  ("ACInputVA", ⟨38, 2, .UINT, .divBy 10⟩),
  ("FaultBit", ⟨40, 1, .UINT, .toInt⟩),
  ("WarningBit", ⟨41, 1, .UINT, .toInt⟩),
  ("WarningBitHigh", ⟨42, 1, .UINT, .toInt⟩),
  ("WarningValue", ⟨43, 1, .UINT, .toInt⟩),
  ("DeviceTypeCode", ⟨44, 1, .UINT, .toInt⟩),
  ("ExportToGridTodaykWh", ⟨45, 1, .UINT, .divBy 10⟩),
  ("ExportToGridTotalkWh", ⟨46, 2, .UINT, .divBy 10⟩),
  ("PV1EnergyTodaykWh", ⟨48, 2, .UINT, .divBy 10⟩),
  ("PV1EnergyTotalkWh", ⟨50, 2, .UINT, .divBy 10⟩),
  ("PV2EnergyTodaykWh", ⟨52, 2, .UINT, .divBy 10⟩),
  ("PV2EnergyTotalkWh", ⟨54, 2, .UINT, .divBy 10⟩),
  ("ACChargeEnergyTodaykWh", ⟨56, 2, .UINT, .divBy 10⟩),
  ("ACChargeEnergyTotalkWh", ⟨58, 2, .UINT, .divBy 10⟩),
  ("BatteryDischargeEnergyTodaykWh", ⟨60, 2, .UINT, .divBy 10⟩),
  ("BatteryDischargeEnergyTotalkWh", ⟨62, 2, .UINT, .divBy 10⟩),
  ("ACDischargeEnergyTodaykWh", ⟨64, 2, .UINT, .divBy 10⟩),
  ("ACDischargeEnergyTotalkWh", ⟨66, 2, .UINT, .divBy 10⟩),
  ("ACChargeBatteryAmps", ⟨68, 1, .UINT, .divBy 10⟩),
  ("ACDischargeWatt", ⟨69, 2, .UINT, .divBy 10⟩),
  ("ACDischargeVA", ⟨71, 2, .UINT, .divBy 10⟩),
  ("BatteryDischargeWatt", ⟨73, 2, .UINT, .divBy 10⟩),
  ("BatteryDischargeVA", ⟨75, 2, .UINT, .divBy 10⟩),
  ("BatteryWatt", ⟨77, 2, .INT, .divBy 10⟩),
  ("MpptFanSpeedPercent", ⟨81, 1, .UINT, .toInt⟩),
  ("InvFanSpeedPercent", ⟨82, 1, .UINT, .toInt⟩),
  ("TotalChargeAmps", ⟨83, 1, .UINT, .divBy 10⟩),
  ("TotalDischargeAmps", ⟨84, 1, .UINT, .divBy 10⟩),
  ("OPDischargeEnergyTodaykWh", ⟨85, 2, .UINT, .divBy 10⟩),
  ("OPDischargeEnergyTotalkWh", ⟨87, 2, .UINT, .divBy 10⟩),
  ("ParaSystemChargeAmps", ⟨90, 1, .UINT, .divBy 10⟩)]

/-! ### Character (ascii) register handling -/

/-- UTF-8 encoding of one character (as performed by `str.encode("utf-8")`). -/
def utf8EncodeChar (c : Char) : List Nat :=
  let n := c.toNat
  if n < 128 then [n]
  else if n < 2048 then [192 + n / 64, 128 + n % 64]
  else if n < 65536 then [224 + n / 4096, 128 + n / 64 % 64, 128 + n % 64]
  else [240 + n / 262144, 128 + n / 4096 % 64, 128 + n / 64 % 64, 128 + n % 64]

/-- `value.encode("utf-8")` for a Python string. -/
def utf8_encode (s : String) : List Nat := (s.data.map utf8EncodeChar).flatten

/-- Partial model of `bytes.decode("utf-8")`: total and exact on ASCII byte
strings (which covers every theorem below); `none` marks the unmodelled
multi-byte fragment.  Note there is no NUL stripping: `\x00` bytes decode to
NUL characters. -/
def utf8_decode (data : List Nat) : Option String :=
  if data.all (fun b => b < 128) then some (String.mk (data.map (fun b => Char.ofNat b)))
  else none

/-- `GrowattInverter.registers_to_char`: bytes of the word slice decoded as
UTF-8 — with no postprocessing of NUL bytes. -/
def registers_to_char (registers : List Nat) (start length : Nat) : Except PyExc String :=
  match utf8_decode (registers_to_bytes registers start length) with
  | some s => .ok s
  | none => .error (.unmodeled ("non-ASCII utf-8 decode"))

/-- `GrowattInverter.generic_read_postprocess` (the wildcard `ValueError`
branch of the source match is unreachable: `RegType` is exhausted). -/
def generic_read_postprocess (registers : List Nat) (start length : Nat)
    (type_ : RegType) : Except PyExc PyVal :=
  match type_ with
  | .UINT => .ok (.intV (combine_registers registers start length false))
  | .INT => .ok (.intV (combine_registers registers start length true))
  | .CHAR => (registers_to_char registers start length).map .strV

/-- The byte-pairing comprehension in the CHAR branch of `write_config`:
two bytes per word, a lone trailing byte becomes a bare low-byte word. -/
def char_pack : List Nat → List Nat
  | b1 :: b2 :: rest => (b1 * 256 + b2) :: char_pack rest
  | [b] => [b]
  | [] => []

/-- The CHAR branch of `write_config`: UTF-8-encode, pack two bytes per word,
right-pad with zero words, and fail when the packed length exceeds the
register length. -/
def char_encode (s : String) (length : Nat) : Except PyExc (List Nat) :=
  let packed := char_pack (utf8_encode s)
  let values := packed ++ List.replicate (length - packed.length) 0
  if values.length ≠ length then .error (.valueError ("Invalid value length"))
  else .ok values

/-- The encoding pipeline of `write_config` after the catalog lookup: the
writeability check, the preprocess call with its `(ValueError, KeyError) →
ValueError("Invalid value")` mapping, and the per-type register encoding.
An out-of-range numeric value hits `to_bytes`'s `OverflowError`, which the
source does not catch. -/
def encode_registers (e : RegEntry) (v : PyVal) : Except PyExc (List Nat) :=
  match e.writepre with
  | none => .error (.valueError ("Register is not writeable"))
  | some pre =>
    let pv : Except PyExc PyVal :=
      match applyWritePre pre v with
      | .error (.valueError _) => .error (.valueError ("Invalid value"))
      | .error (.keyError _) => .error (.valueError ("Invalid value"))
      | r => r
    match pv with
    | .error err => .error err
    | .ok w =>
      match e.type_ with
      | .UINT | .INT =>
        match w with
        | .intV n =>
          match uncombine_registers n e.length (e.type_ == .INT) with
          | some ws => .ok ws
          | none => .error .overflowError
        | _ => .error .typeError
      | .CHAR =>
        match w with
        | .strV s => char_encode s e.length
        | _ => .error .typeError

/-- `GrowattInverter.write_config` as a function from key and value to the
`(start, values)` pair that is put on the write queue (or the exception). -/
def write_config (key : String) (value : PyVal) : Except PyExc (Nat × List Nat) :=
  match holdingLookup key with
  | none => .error (.keyError ("Invalid key"))
  | some e => (encode_registers e value).map (fun ws => (e.start, ws))

/-- Observable inverter state: the pending-write queue fed by `write_config`
and the list of Modbus write transactions issued on the serial channel. -/
structure InverterState where
  write_queue : List (Nat × List Nat)
  transactions : List (Nat × Nat)
deriving DecidableEq, Repr

/-- `write_config` as a state transformer: its only effect is
`self.write_queue.put((start, values))`; no transaction is issued. -/
def write_config_step (st : InverterState) (key : String) (value : PyVal) :
    Except PyExc InverterState :=
  match holdingLookup key with
  | none => .error (.keyError ("Invalid key"))
  | some e =>
    match encode_registers e value with
    | .error err => .error err
    | .ok ws => .ok { st with write_queue := st.write_queue ++ [(e.start, ws)] }

/-- Decoding one holding entry against a word slice that starts at the
entry's own offset (the read half of `read_config` for that entry). -/
def read_decode (e : RegEntry) (ws : List Nat) : Except PyExc PyVal := do
  let raw ← generic_read_postprocess ws 0 e.length e.type_
  applyReadPost e.readpost raw

/-- Encode a value through a holding entry's write path and decode the
resulting words through its read path. -/
def roundtrip (e : RegEntry) (v : PyVal) : Except PyExc PyVal := do
  let ws ← encode_registers e v
  read_decode e ws

/-- `write_config` followed by decoding the enqueued words through the same
entry's read path (what a later `read_config` reports for that entry once
the words are written). -/
def write_readback (key : String) (v : PyVal) : Except PyExc PyVal :=
  match holdingLookup key with
  | none => .error (.keyError ("Invalid key"))
  | some e => do
    let p ← write_config key v
    read_decode e p.2

/-- The decode loop of `read_status`: entries processed in catalog order,
stopping at the first raised exception. -/
def read_entries_input (regs : List Nat) :
    List (String × InputEntry) → Except PyExc (List (String × PyVal))
  | [] => .ok []
  | (name, e) :: rest => do
    let raw ← generic_read_postprocess regs e.start e.length e.type_
    let v ← applyReadPost e.readpost raw
    let tail ← read_entries_input regs rest
    .ok ((name, v) :: tail)

/-- `GrowattInverter.read_status`, over the outcome of the single input
register read transaction `read_input_registers(0, 91)`. -/
def read_status (transport : Except PyExc (List Nat)) :
    Except PyExc (List (String × PyVal)) := do
  let regs ← transport
  read_entries_input regs InputRegisters

/-- The decode loop of `read_config` over the holding catalog. -/
def read_entries_holding (regs : List Nat) :
    List (String × RegEntry) → Except PyExc (List (String × PyVal))
  | [] => .ok []
  | (name, e) :: rest => do
    let raw ← generic_read_postprocess regs e.start e.length e.type_
    let v ← applyReadPost e.readpost raw
    let tail ← read_entries_holding regs rest
    .ok ((name, v) :: tail)

/-- `GrowattInverter.read_config`, over the outcomes of the two holding
register read transactions (0-100 and 101-162), concatenated in order. -/
def read_config (t1 t2 : Except PyExc (List Nat)) :
    Except PyExc (List (String × PyVal)) := do
  let row1 ← t1
  let row2 ← t2
  read_entries_holding (row1 ++ row2) HoldingAndWriteRegisters

example : write_config ("SerialNumber") (.strV ("AB")) = .ok (23, [16706, 0, 0, 0, 0]) := by
  decide

example : write_readback ("OutputConfig") (.strV ("SBU")) = .ok (.strV ("SBU")) := by
  decide

example : write_config ("OutputConfig") (.strV ("XYZ")) =
    .error (.valueError ("Invalid value")) := by decide

example : write_config ("nope") (.intV 3) = .error (.keyError ("Invalid key")) := by decide

example : write_config ("OnOff") (.intV 0) =
    .error (.valueError ("Register is not writeable")) := by decide

/-! ### Claim C1 / C10: numeric round-trips -/

/-- The valid write domain of a holding entry, one domain shape per write
transform kind: the enumeration's labels for enum transforms, the booleans
for boolean transforms, and the representable (in-width) integers for plain
and scaled integer transforms. -/
@[reducible] def validDomain (e : RegEntry) (v : PyVal) : Prop :=
  match e.writepre with
  | some (.enumLookupW t) => v ∈ t.map (fun p => p.1)
  | some .toInt => ∃ n : Int, v = .intV n ∧ 0 ≤ n ∧ n < 2 ^ (16 * e.length)
  | some .str2boolInt => ∃ b, v = .boolV b
  | some .overTempW => ∃ b, v = .boolV b
  | some (.intTimes m) => ∃ n : Int, v = .intV n ∧ 0 ≤ n * m ∧ n * m < 2 ^ (16 * e.length)
  | some .toStr => False
  | none => False

theorem roundtrip_uint1_toInt (st : Nat) (n : Int) (h0 : 0 ≤ n) (h1 : n < 2 ^ (16 * 1)) :
    (roundtrip ⟨st, 1, .UINT, .toInt, some .toInt⟩ (.intV n)).map
      (fun r => pyEqb r (.intV n)) = .ok true := by
  obtain ⟨ws, hws, hlen, hlt, hcomb⟩ := uncombine_combine_spec n 1 false
    (by simpa using ⟨h0, h1⟩)
  have hbe : (RegType.UINT == RegType.INT) = false := rfl
  simp [roundtrip, encode_registers, applyWritePre, pyInt, hbe, hws,
    read_decode, generic_read_postprocess, hcomb, applyReadPost, pyEqb, pyNum,
    Except.map, Except.bind, bind]

theorem roundtrip_uint1_scaled (st : Nat) (n : Int) (h0 : 0 ≤ n * 10)
    (h1 : n * 10 < 2 ^ (16 * 1)) :
    (roundtrip ⟨st, 1, .UINT, .divBy 10, some (.intTimes 10)⟩ (.intV n)).map
      (fun r => pyEqb r (.intV n)) = .ok true := by
  obtain ⟨ws, hws, hlen, hlt, hcomb⟩ := uncombine_combine_spec (n * 10) 1 false ⟨h0, h1⟩
  have hbe : (RegType.UINT == RegType.INT) = false := rfl
  simp [roundtrip, encode_registers, applyWritePre, pyInt, hbe, hws,
    read_decode, generic_read_postprocess, hcomb, applyReadPost, pyEqb, pyNum,
    Except.map, Except.bind, bind]

/-- C1: for every numeric holding-register entry that has a write transform,
and every value in that entry's valid domain, decoding (combine +
readpostprocess) the words produced by encoding (writepreprocess +
uncombine) returns a value Python-equal to the original. -/
theorem numeric_holding_roundtrip :
    ∀ kv ∈ HoldingAndWriteRegisters, kv.2.type_ ≠ RegType.CHAR →
      ∀ pre, kv.2.writepre = some pre →
        ∀ v, validDomain kv.2 v →
          (roundtrip kv.2 v).map (fun r => pyEqb r v) = .ok true := by
  intro kv hkv
  fin_cases hkv <;> intro hnc pre hpre v hv <;>
    first
    | exact absurd rfl hnc
    | exact Option.noConfusion hpre
    | (obtain ⟨n, rfl, h0, h1⟩ := hv
       first
       | exact roundtrip_uint1_toInt _ n h0 h1
       | exact roundtrip_uint1_scaled _ n h0 h1)
    | (obtain ⟨b, rfl⟩ := hv; cases b <;> decide)
    | (simp only [validDomain] at hv; fin_cases hv <;> decide)

/-- Witness for C1 at the scaled entry BulkChargeVolt with value 56. -/
theorem numeric_holding_roundtrip_witness :
    (roundtrip ⟨35, 1, .UINT, .divBy 10, some (.intTimes 10)⟩ (.intV 56)).map
      (fun r => pyEqb r (.intV 56)) = .ok true :=
  numeric_holding_roundtrip
    (("BulkChargeVolt"), ⟨35, 1, .UINT, .divBy 10, some (.intTimes 10)⟩)
    (by decide) (by decide) _ rfl (.intV 56) ⟨56, rfl, by norm_num, by norm_num⟩

/-- C10: for every width `n ≥ 1`, signedness `s` and integer representable
in `n` 16-bit words, `uncombine_registers` yields exactly `n` words below
2^16 and `combine_registers` with the same width and signedness restores
the value. -/
theorem uncombine_combine_roundtrip (n : Nat) (s : Bool) (v : Int) (hn : 1 ≤ n)
    (hv : if s then -(2 ^ (16 * n - 1) : Int) ≤ v ∧ v < 2 ^ (16 * n - 1)
          else 0 ≤ v ∧ v < 2 ^ (16 * n)) :
    ∃ ws, uncombine_registers v n s = some ws ∧ ws.length = n ∧
      (∀ w ∈ ws, w < 65536) ∧ combine_registers ws 0 n s = v := by
  apply uncombine_combine_spec
  cases s with
  | false => simpa using hv
  | true =>
    simp only [if_pos rfl] at hv ⊢
    have hpow : (2 : Int) ^ (16 * n) = 2 * 2 ^ (16 * n - 1) := by
      rw [← pow_succ']
      congr 1
      omega
    exact ⟨by linarith [hv.1], by linarith [hv.2]⟩

/-- Witness for C10 at `n = 2`, signed, `v = -2`. -/
theorem uncombine_combine_roundtrip_witness :
    ∃ ws, uncombine_registers (-2) 2 true = some ws ∧ ws.length = 2 ∧
      (∀ w ∈ ws, w < 65536) ∧ combine_registers ws 0 2 true = -2 :=
  uncombine_combine_roundtrip 2 true (-2) (by norm_num) (by norm_num)

/-! ### Claim C2: ascii register decode keeps trailing NULs -/

theorem char_pack_even (data : List Nat) (he : data.length % 2 = 0) :
    char_pack data = bytes_to_registers data := by
  induction data using char_pack.induct with
  | case1 b1 b2 rest ih =>
    simp only [char_pack, bytes_to_registers]
    rw [ih (by simp at he ⊢; omega)]
  | case2 b => simp at he
  | case3 => rfl

theorem utf8_encode_ascii_list (cs : List Char) (h : ∀ c ∈ cs, c.toNat < 128) :
    (cs.map utf8EncodeChar).flatten = cs.map Char.toNat := by
  induction cs with
  | nil => rfl
  | cons c cs ih =>
    have hc := h c (by simp)
    simp only [List.map_cons, List.flatten_cons, utf8EncodeChar, if_pos hc]
    rw [ih (fun c hc => h c (by simp [hc]))]
    rfl

theorem registers_to_bytes_append (xs ys : List Nat) :
    registers_to_bytes (xs ++ ys) 0 (xs.length + ys.length) =
      registers_to_bytes xs 0 xs.length ++ registers_to_bytes ys 0 ys.length := by
  induction xs with
  | nil => simp [registers_to_bytes_nil_len]
  | cons x xs ih =>
    have h1 : (x :: xs).length + ys.length = (xs.length + ys.length) + 1 := by
      simp; omega
    rw [List.cons_append, h1, registers_to_bytes_cons, ih]
    have h2 : (x :: xs).length = xs.length + 1 := by simp
    rw [h2, registers_to_bytes_cons]
    rfl

theorem registers_to_bytes_replicate_zero (m : Nat) :
    registers_to_bytes (List.replicate m 0) 0 m = List.replicate (2 * m) 0 := by
  induction m with
  | zero => simp [registers_to_bytes_nil_len]
  | succ m ih =>
    rw [List.replicate_succ, registers_to_bytes_cons, ih]
    have h2 : 2 * (m + 1) = (2 * m) + 1 + 1 := by omega
    rw [h2, List.replicate_succ, List.replicate_succ]

theorem char_pack_length (l : List Nat) : (char_pack l).length = (l.length + 1) / 2 := by
  induction l using char_pack.induct with
  | case1 b1 b2 rest ih =>
    simp only [char_pack, List.length_cons, ih]
    omega
  | case2 b => simp [char_pack]
  | case3 => rfl

theorem char_pack_append_single (cs : List Nat) (b : Nat) (he : cs.length % 2 = 0) :
    char_pack (cs ++ [b]) = bytes_to_registers cs ++ [b] := by
  induction cs using bytes_to_registers.induct with
  | case1 b1 b2 rest ih =>
    simp only [List.cons_append, char_pack, bytes_to_registers, List.append_eq]
    rw [ih (by simp at he ⊢; omega)]
  | case2 l h =>
    match l, h with
    | [], _ => rfl
    | [x], _ => simp at he
    | x1 :: x2 :: r, h => exact absurd rfl (h x1 x2 r)

theorem r2b_words_padded (front : List Nat) (bytes : List Nat) (len : Nat)
    (hfront : registers_to_bytes front 0 front.length = bytes)
    (hle : front.length ≤ len) :
    registers_to_bytes (front ++ List.replicate (len - front.length) 0) 0 len =
      bytes ++ List.replicate (2 * (len - front.length)) 0 := by
  have hlen2 : len = front.length + (List.replicate (len - front.length) 0).length := by
    rw [List.length_replicate]
    omega
  rw [show registers_to_bytes (front ++ List.replicate (len - front.length) 0) 0 len =
      registers_to_bytes (front ++ List.replicate (len - front.length) 0) 0
        (front.length + (List.replicate (len - front.length) 0).length) from by
    rw [← hlen2]]
  rw [registers_to_bytes_append, hfront, List.length_replicate,
    registers_to_bytes_replicate_zero]

theorem decode_ascii_padded (data : List Nat) (pad : Nat)
    (h : ∀ b ∈ data, b < 128) :
    utf8_decode (data ++ List.replicate pad 0) =
      some (String.mk (data.map (fun b => Char.ofNat b) ++
        List.replicate pad (Char.ofNat 0))) := by
  have hall : (data ++ List.replicate pad 0).all (fun b => b < 128) = true := by
    rw [List.all_eq_true]
    intro b hb
    rcases List.mem_append.mp hb with h1 | h1
    · simpa using h b h1
    · rw [List.eq_of_mem_replicate h1]
      norm_num
  rw [utf8_decode, if_pos hall, List.map_append, List.map_replicate]

/-- C2 (amended): for an ascii-kind register slot, encoding packs the UTF-8
bytes two per word big-endian and right-pads with zero words to the register
length; decoding packs two bytes per word big-endian and decodes them as
UTF-8 WITHOUT stripping trailing NULs.  When the value's UTF-8 byte length
is even, the round trip returns the original text followed by the zero
padding as trailing NUL characters; when it is odd, the lone final byte is
stored in the low byte of its own word, so the round trip returns the text
with one NUL inserted before its last character, then the trailing NUL
padding. -/
theorem ascii_pack_roundtrip_padded (s : String) (len : Nat)
    (hascii : ∀ c ∈ s.data, c.toNat < 128)
    (hfit : (s.data.length + 1) / 2 ≤ len) :
    ∃ ws, char_encode s len = .ok ws ∧ ws.length = len ∧
      registers_to_char ws 0 len = .ok (String.mk
        ((if s.data.length % 2 = 0 then s.data
          else s.data.dropLast ++ [Char.ofNat 0, s.data.getLastD (Char.ofNat 0)]) ++
         List.replicate (2 * len - 2 * ((s.data.length + 1) / 2)) (Char.ofNat 0))) := by
  set bs : List Nat := utf8_encode s with hbs
  have hbs' : bs = s.data.map Char.toNat := utf8_encode_ascii_list s.data hascii
  have hbslen : bs.length = s.data.length := by rw [hbs']; simp
  have hbslt128 : ∀ b ∈ bs, b < 128 := by
    rw [hbs']
    intro b hb
    obtain ⟨c, hc, rfl⟩ := List.mem_map.mp hb
    exact hascii c hc
  have hbslt : ∀ b ∈ bs, b < 256 := fun b hb =>
    Nat.lt_trans (hbslt128 b hb) (by norm_num)
  have hplen : (char_pack bs).length = (s.data.length + 1) / 2 := by
    rw [char_pack_length, hbslen]
  have hple : (char_pack bs).length ≤ len := by rw [hplen]; exact hfit
  have hcount : 2 * (len - (char_pack bs).length) =
      2 * len - 2 * ((s.data.length + 1) / 2) := by
    rw [hplen]
    omega
  set ws : List Nat := char_pack bs ++ List.replicate (len - (char_pack bs).length) 0
    with hws
  have hwslen : ws.length = len := by
    rw [hws, List.length_append, List.length_replicate, hplen]
    omega
  refine ⟨ws, ?_, hwslen, ?_⟩
  · simp only [char_encode, ← hbs]
    rw [← hws, if_neg (by rw [hwslen]; exact fun h => h rfl)]
  · rw [registers_to_char]
    by_cases hpar : s.data.length % 2 = 0
    · -- even byte length: the packed words expand back to exactly `bs`
      have heEven : bs.length % 2 = 0 := by rw [hbslen]; exact hpar
      have hfront : registers_to_bytes (char_pack bs) 0 (char_pack bs).length = bs := by
        rw [char_pack_even bs heEven]
        have h3 := registers_to_bytes_bytes_to_registers bs hbslt heEven
        have h4 : (bytes_to_registers bs).length = bs.length / 2 :=
          bytes_to_registers_length bs
        rw [h4]
        exact h3
      rw [hws, r2b_words_padded _ _ _ hfront hple, decode_ascii_padded _ _ hbslt128,
        if_pos hpar]
      have hmap : bs.map (fun b => Char.ofNat b) = s.data := by
        rw [hbs', List.map_map]
        simp [Function.comp_def]
      rw [hmap, hcount]
    · -- odd byte length: the last byte sits alone in its word's low byte
      obtain hnil | ⟨cs, c, hsc⟩ := s.data.eq_nil_or_concat'
      · rw [hnil] at hpar
        simp at hpar
      have hLcs : s.data.length = cs.length + 1 := by rw [hsc]; simp
      have hLpar : s.data.length % 2 = 1 := by omega
      have hcspar : cs.length % 2 = 0 := by omega
      have hbs2 : bs = cs.map Char.toNat ++ [c.toNat] := by
        rw [hbs', hsc, List.map_append]
        rfl
      have hcp : char_pack bs = bytes_to_registers (cs.map Char.toNat) ++ [c.toNat] := by
        rw [hbs2]
        exact char_pack_append_single _ _ (by simpa using hcspar)
      have hc128 : c.toNat < 128 :=
        hascii c (by rw [hsc]; exact List.mem_append_right _ (by simp))
      have hmaplt : ∀ b ∈ cs.map Char.toNat, b < 256 := by
        intro b hb
        obtain ⟨x, hx, rfl⟩ := List.mem_map.mp hb
        have := hascii x (by rw [hsc]; exact List.mem_append_left _ hx)
        omega
      have hfront : registers_to_bytes (char_pack bs) 0 (char_pack bs).length =
          cs.map Char.toNat ++ [0, c.toNat] := by
        rw [hcp, List.length_append, registers_to_bytes_append]
        congr 1
        · have h3 := registers_to_bytes_bytes_to_registers (cs.map Char.toNat) hmaplt
            (by simpa using hcspar)
          have h4 : (bytes_to_registers (cs.map Char.toNat)).length =
              (cs.map Char.toNat).length / 2 := bytes_to_registers_length _
          rw [h4]
          exact h3
        · rw [show ([c.toNat] : List Nat).length = 0 + 1 from rfl,
            registers_to_bytes_cons, registers_to_bytes_nil_len,
            Nat.div_eq_of_lt (by omega), Nat.mod_eq_of_lt (by omega)]
      have hdlt : ∀ b ∈ cs.map Char.toNat ++ [0, c.toNat], b < 128 := by
        intro b hb
        rcases List.mem_append.mp hb with h1 | h1
        · obtain ⟨x, hx, rfl⟩ := List.mem_map.mp h1
          exact hascii x (by rw [hsc]; exact List.mem_append_left _ hx)
        · rcases List.mem_cons.mp h1 with h2 | h2
          · omega
          · rcases List.mem_cons.mp h2 with h3 | h3
            · omega
            · simp at h3
      rw [hws, r2b_words_padded _ _ _ hfront hple, decode_ascii_padded _ _ hdlt,
        if_neg hpar]
      have hmap : (cs.map Char.toNat ++ [0, c.toNat]).map (fun b => Char.ofNat b) =
          s.data.dropLast ++ [Char.ofNat 0, s.data.getLastD (Char.ofNat 0)] := by
        have hdl : s.data.dropLast = cs := by rw [hsc]; simp
        have hgl : s.data.getLastD (Char.ofNat 0) = c := by
          rw [hsc]
          exact List.getLastD_concat _ _ _
        rw [List.map_append, List.map_map, hdl, hgl]
        congr 1
        · simp [Function.comp_def]
        · simp
      rw [hmap, hcount]

/-- Witness for C2's amended round trip at the odd-length value "ABC" with
`len = 5` (the SerialNumber width): decode returns "AB", an inserted NUL,
"C", then six trailing NULs. -/
theorem ascii_pack_roundtrip_padded_witness :
    ∃ ws, char_encode ("ABC") 5 = .ok ws ∧ ws.length = 5 ∧
      registers_to_char ws 0 5 = .ok (String.mk
        ((if ("ABC" : String).data.length % 2 = 0 then ("ABC" : String).data
          else ("ABC" : String).data.dropLast ++
            [Char.ofNat 0, ("ABC" : String).data.getLastD (Char.ofNat 0)]) ++
         List.replicate (2 * 5 - 2 * ((("ABC" : String).data.length + 1) / 2))
           (Char.ofNat 0))) :=
  ascii_pack_roundtrip_padded ("ABC") 5 (by decide) (by decide)

/-- C2 counterexample: encoding "AB" for the 5-word SerialNumber entry
right-pads with zero words, and decoding those words returns a string whose
last character is NUL — trailing NUL bytes are NOT stripped. -/
theorem ascii_decode_keeps_trailing_nuls_cex :
    write_config ("SerialNumber") (.strV ("AB")) = .ok (23, [16706, 0, 0, 0, 0]) ∧
    (registers_to_char [16706, 0, 0, 0, 0] 0 5).map
      (fun s => s.data.getLast?) = .ok (some (Char.ofNat 0)) := by
  refine ⟨by decide, by decide⟩

/-! ### Claim C4: drain-loop coalescing -/

/-- Python dict assignment `d[k] = v` on an insertion-ordered association
list: updating a present key keeps its position, a new key appends (exactly
CPython's dict semantics for the `requested` dict of the drain loop). -/
def dict_set : List (Nat × Nat) → Nat → Nat → List (Nat × Nat)
  | [], k, v => [(k, v)]
  | p :: rest, k, v => if p.1 = k then (k, v) :: rest else p :: dict_set rest k v

/-- Python dict lookup on the association list. -/
def dict_get : List (Nat × Nat) → Nat → Option Nat
  | [], _ => none
  | p :: rest, k => if p.1 = k then some p.2 else dict_get rest k

/-- Inner loop of the drain cycle for one dequeued `(start, values)` item:
`requested[start + i] = values[i]` for each `i < len(values)`. -/
def apply_entry (d : List (Nat × Nat)) (sv : Nat × List Nat) : List (Nat × Nat) :=
  (List.range sv.2.length).foldl (fun d i => dict_set d (sv.1 + i) (sv.2.getD i 0)) d

/-- The `requested` dict built by one drain cycle of
`GrowattInverter.write_registers`: queued items are drained FIFO and
coalesced per offset, later items overwriting earlier ones. -/
def requested (queue : List (Nat × List Nat)) : List (Nat × Nat) :=
  queue.foldl apply_entry []

/-- The write transactions one drain cycle issues: one
`client.write_registers(offset, value)` per `requested` item, in dict
order. -/
def drain_transactions (queue : List (Nat × List Nat)) : List (Nat × Nat) :=
  requested queue

/-- Whether a queued `(start, values)` entry covers offset `o`. -/
@[reducible] def covers (sv : Nat × List Nat) (o : Nat) : Prop :=
  sv.1 ≤ o ∧ o < sv.1 + sv.2.length

/-- One step of the specification fold: the value the most recent covering
entry assigns to offset `o`. -/
def lvf_step (o : Nat) (acc : Option Nat) (sv : Nat × List Nat) : Option Nat :=
  if sv.1 ≤ o ∧ o < sv.1 + sv.2.length then some (sv.2.getD (o - sv.1) 0) else acc

/-- The value at offset `o` of the most recently queued entry covering `o`
(`none` when no queued entry covers it). -/
def last_value_for (queue : List (Nat × List Nat)) (o : Nat) : Option Nat :=
  queue.foldl (lvf_step o) none

theorem dict_get_set_self (d : List (Nat × Nat)) (k v : Nat) :
    dict_get (dict_set d k v) k = some v := by
  induction d with
  | nil => simp [dict_set, dict_get]
  | cons p rest ih =>
    by_cases h : p.1 = k
    · simp [dict_set, dict_get, h]
    · simp [dict_set, dict_get, h, ih]

theorem dict_get_set_other (d : List (Nat × Nat)) (k k' v : Nat) (h : k' ≠ k) :
    dict_get (dict_set d k v) k' = dict_get d k' := by
  induction d with
  | nil =>
    simp only [dict_set, dict_get]
    rw [if_neg (fun hh : k = k' => h hh.symm)]
  | cons p rest ih =>
    by_cases hp : p.1 = k
    · simp only [dict_set, if_pos hp, dict_get]
      rw [if_neg (fun hh : k = k' => h hh.symm),
        if_neg (fun hh : p.1 = k' => h (hp ▸ hh).symm)]
    · simp only [dict_set, if_neg hp, dict_get]
      by_cases hp' : p.1 = k'
      · rw [if_pos hp', if_pos hp']
      · rw [if_neg hp', if_neg hp', ih]

theorem dict_get_fold_range (d : List (Nat × Nat)) (s : Nat) (vs : List Nat)
    (n : Nat) (o : Nat) :
    dict_get ((List.range n).foldl (fun d i => dict_set d (s + i) (vs.getD i 0)) d) o =
      if s ≤ o ∧ o < s + n then some (vs.getD (o - s) 0) else dict_get d o := by
  induction n generalizing d with
  | zero =>
    rw [List.range_zero, List.foldl_nil, if_neg (by omega)]
  | succ n ih =>
    rw [List.range_succ, List.foldl_append, List.foldl_cons, List.foldl_nil]
    by_cases ho : o = s + n
    · subst ho
      rw [dict_get_set_self, if_pos (by omega)]
      have hsub : s + n - s = n := by omega
      rw [hsub]
    · rw [dict_get_set_other _ _ _ _ (by omega), ih]
      by_cases hc : s ≤ o ∧ o < s + n
      · rw [if_pos hc, if_pos (by omega)]
      · rw [if_neg hc, if_neg (by omega)]

theorem dict_get_apply_entry (d : List (Nat × Nat)) (sv : Nat × List Nat) (o : Nat) :
    dict_get (apply_entry d sv) o =
      if sv.1 ≤ o ∧ o < sv.1 + sv.2.length then some (sv.2.getD (o - sv.1) 0)
      else dict_get d o :=
  dict_get_fold_range d sv.1 sv.2 sv.2.length o

theorem foldl_lvf_step (queue : List (Nat × List Nat)) (o : Nat) (a : Option Nat) :
    queue.foldl (lvf_step o) a =
      match queue.foldl (lvf_step o) none with
      | some v => some v
      | none => a := by
  induction queue generalizing a with
  | nil => simp
  | cons sv rest ih =>
    simp only [List.foldl_cons]
    rw [ih (lvf_step o a sv), ih (lvf_step o none sv)]
    cases hF : rest.foldl (lvf_step o) none <;>
      by_cases hc : sv.1 ≤ o ∧ o < sv.1 + sv.2.length <;>
        simp [lvf_step, hc, hF]

theorem dict_get_requested (queue : List (Nat × List Nat)) (o : Nat) :
    dict_get (requested queue) o = last_value_for queue o := by
  suffices h : ∀ d, dict_get (queue.foldl apply_entry d) o =
      match last_value_for queue o with
      | some v => some v
      | none => dict_get d o by
    have h0 := h []
    cases hl : last_value_for queue o <;>
      simp only [hl] at h0 <;> simpa [requested, dict_get] using h0
  intro d
  induction queue generalizing d with
  | nil => simp [last_value_for]
  | cons sv rest ih =>
    simp only [List.foldl_cons]
    rw [ih (apply_entry d sv)]
    have hlv : last_value_for (sv :: rest) o =
        match last_value_for rest o with
        | some v => some v
        | none => lvf_step o none sv := by
      rw [last_value_for, List.foldl_cons, foldl_lvf_step]
      rfl
    rw [hlv, dict_get_apply_entry]
    cases hF : last_value_for rest o <;>
      by_cases hc : sv.1 ≤ o ∧ o < sv.1 + sv.2.length <;>
        simp [lvf_step, hc, hF]

theorem dict_set_keys_mem (d : List (Nat × Nat)) (k v : Nat) :
    ∀ x ∈ (dict_set d k v).map Prod.fst, x = k ∨ x ∈ d.map Prod.fst := by
  induction d with
  | nil =>
    intro x hx
    simp only [dict_set, List.map_cons, List.map_nil, List.mem_singleton] at hx
    exact Or.inl hx
  | cons p rest ih =>
    intro x hx
    simp only [dict_set] at hx
    by_cases hp : p.1 = k
    · rw [if_pos hp, List.map_cons, List.mem_cons] at hx
      rcases hx with h1 | h1
      · exact Or.inl h1
      · exact Or.inr (by rw [List.map_cons]; exact List.mem_cons_of_mem _ h1)
    · rw [if_neg hp, List.map_cons, List.mem_cons] at hx
      rcases hx with h1 | h1
      · refine Or.inr ?_
        rw [List.map_cons]
        exact h1 ▸ List.mem_cons_self _ _
      · rcases ih x h1 with h2 | h2
        · exact Or.inl h2
        · exact Or.inr (by rw [List.map_cons]; exact List.mem_cons_of_mem _ h2)

theorem dict_set_keys_nodup (d : List (Nat × Nat)) (k v : Nat)
    (h : (d.map Prod.fst).Nodup) : ((dict_set d k v).map Prod.fst).Nodup := by
  induction d with
  | nil => simp [dict_set]
  | cons p rest ih =>
    rw [List.map_cons, List.nodup_cons] at h
    simp only [dict_set]
    by_cases hp : p.1 = k
    · rw [if_pos hp, List.map_cons, List.nodup_cons]
      exact ⟨hp ▸ h.1, h.2⟩
    · rw [if_neg hp, List.map_cons, List.nodup_cons]
      refine ⟨?_, ih h.2⟩
      intro hmem
      rcases dict_set_keys_mem rest k v p.1 hmem with h' | h'
      · exact hp h'
      · exact h.1 h'

theorem apply_entry_keys_nodup (d : List (Nat × Nat)) (sv : Nat × List Nat)
    (h : (d.map Prod.fst).Nodup) : ((apply_entry d sv).map Prod.fst).Nodup := by
  rw [apply_entry]
  generalize List.range sv.2.length = l
  induction l generalizing d with
  | nil => exact h
  | cons i rest ih =>
    rw [List.foldl_cons]
    exact ih _ (dict_set_keys_nodup _ _ _ h)

theorem requested_keys_nodup (queue : List (Nat × List Nat)) :
    ((requested queue).map Prod.fst).Nodup := by
  rw [requested]
  have h : ∀ d : List (Nat × Nat), (d.map Prod.fst).Nodup →
      ((queue.foldl apply_entry d).map Prod.fst).Nodup := by
    induction queue with
    | nil => intro d h; exact h
    | cons sv rest ih =>
      intro d h
      rw [List.foldl_cons]
      exact ih _ (apply_entry_keys_nodup d sv h)
  exact h [] (by simp)

theorem dict_get_eq_none_of_not_mem (d : List (Nat × Nat)) (o : Nat)
    (h : o ∉ d.map Prod.fst) : dict_get d o = none := by
  induction d with
  | nil => rfl
  | cons p rest ih =>
    rw [List.map_cons, List.mem_cons] at h
    push_neg at h
    simp only [dict_get]
    rw [if_neg (fun hh : p.1 = o => h.1 hh.symm)]
    exact ih h.2

theorem filter_key_eq_nil_of_not_mem (d : List (Nat × Nat)) (o : Nat)
    (h : o ∉ d.map Prod.fst) : d.filter (fun p => p.1 == o) = [] := by
  induction d with
  | nil => rfl
  | cons p rest ih =>
    rw [List.map_cons, List.mem_cons] at h
    push_neg at h
    rw [List.filter_cons, if_neg (by simpa using fun hh : p.1 = o => h.1 hh.symm)]
    exact ih h.2

theorem filter_eq_of_nodup_get (d : List (Nat × Nat)) (o : Nat)
    (h : (d.map Prod.fst).Nodup) :
    d.filter (fun p => p.1 == o) =
      match dict_get d o with
      | some v => [(o, v)]
      | none => [] := by
  induction d with
  | nil => simp [dict_get]
  | cons p rest ih =>
    rw [List.map_cons, List.nodup_cons] at h
    by_cases hp : p.1 = o
    · have hrest : rest.filter (fun p => p.1 == o) = [] :=
        filter_key_eq_nil_of_not_mem rest o (hp ▸ h.1)
      have hget : dict_get rest o = none :=
        dict_get_eq_none_of_not_mem rest o (hp ▸ h.1)
      obtain ⟨pk, pv⟩ := p
      simp only at hp
      subst hp
      rw [List.filter_cons, if_pos (by simp), hrest]
      simp [dict_get]
    · rw [List.filter_cons, if_neg (by simpa using hp), ih h.2]
      simp only [dict_get]
      rw [if_neg hp]

/-- C4: when two or more queued PendingWrite entries cover the same offset,
one drain cycle issues exactly one write transaction for that offset, and it
carries the value assigned by the most recently queued covering entry. -/
theorem drain_coalesces_last_writer_wins (queue : List (Nat × List Nat)) (o : Nat)
    (i j : Nat) (hij : i < j) (hj : j < queue.length)
    (hcov_i : covers (queue.getD i (0, [])) o)
    (hcov_j : covers (queue.getD j (0, [])) o)
    (v : Nat) (hlast : last_value_for queue o = some v) :
    (drain_transactions queue).filter (fun p => p.1 == o) = [(o, v)] := by
  rw [drain_transactions, filter_eq_of_nodup_get _ _ (requested_keys_nodup queue),
    dict_get_requested, hlast]

/-- Witness for C4: two queued single-word writes to offset 5; the drain
cycle issues the single transaction `(5, 9)`. -/
theorem drain_coalesces_witness :
    (drain_transactions [(5, [7]), (5, [9])]).filter (fun p => p.1 == 5) = [(5, 9)] :=
  drain_coalesces_last_writer_wins [(5, [7]), (5, [9])] 5 0 1 (by norm_num)
    (by norm_num) (by constructor <;> norm_num) (by constructor <;> norm_num) 9
    (by decide)

/-! ### Claims C5 / C6: write_config outcomes and enum fidelity -/

/-- C5: `write_config` fails with `KeyError("Invalid key")` for a key absent
from the holding catalog, with `ValueError("Register is not writeable")` for
an entry without a write transform, and otherwise enqueues the encoded words
as a PendingWrite — and in every outcome it issues no transaction on the
device channel (the `transactions` component of the state is untouched). -/
theorem write_config_outcomes (st : InverterState) (key : String) (v : PyVal) :
    (holdingLookup key = none →
      write_config_step st key v = .error (.keyError ("Invalid key"))) ∧
    (∀ e, holdingLookup key = some e → e.writepre = none →
      write_config_step st key v = .error (.valueError ("Register is not writeable"))) ∧
    (∀ e ws, holdingLookup key = some e → encode_registers e v = .ok ws →
      write_config_step st key v =
        .ok ⟨st.write_queue ++ [(e.start, ws)], st.transactions⟩) ∧
    (∀ st', write_config_step st key v = .ok st' → st'.transactions = st.transactions) := by
  refine ⟨?_, ?_, ?_, ?_⟩
  · intro h
    simp [write_config_step, h]
  · intro e he hw
    simp [write_config_step, he, encode_registers, hw]
  · intro e ws he henc
    simp [write_config_step, he, henc]
  · intro st' h
    cases hl : holdingLookup key with
    | none => simp [write_config_step, hl] at h
    | some e =>
      cases henc : encode_registers e v with
      | error err => simp [write_config_step, hl, henc] at h
      | ok ws =>
        simp only [write_config_step, hl, henc, Except.ok.injEq] at h
        rw [← h]

/-- Witness for C5: the successful branch enqueues `(1, [0])` for
`OutputConfig := "SBU"` and leaves the transaction log untouched. -/
theorem write_config_outcomes_witness :
    write_config_step ⟨[], []⟩ ("OutputConfig") (.strV ("SBU")) = .ok ⟨[(1, [0])], []⟩ :=
  (write_config_outcomes ⟨[], []⟩ ("OutputConfig") (.strV ("SBU"))).2.2.1
    ⟨1, 1, .UINT, .enumLookup OutputConfigR, some (.enumLookupW OutputConfigW)⟩ [0]
    (by decide) (by decide)

/-- The ten label-enumeration holding entries named by the claim. -/
def enumHoldingNames : List String :=
  [("OutputConfig"), ("ChargeConfig"), ("PVModel"), ("ACInModel"),
   ("OutputVoltType"), ("OutputFreqType"), ("OverLoadRestart"),
   ("BatteryType"), ("AgingMode"), ("SafetyType")]

theorem find_enumW_none (t : List (PyVal × Int)) (s : String)
    (h : PyVal.strV s ∉ t.map (fun p => p.1)) :
    t.find? (fun p => pyEqb p.1 (.strV s)) = none := by
  induction t with
  | nil => rfl
  | cons p rest ih =>
    rw [List.map_cons, List.mem_cons] at h
    push_neg at h
    have hp : pyEqb p.1 (.strV s) = false := by
      cases hp1 : p.1 with
      | strV l =>
        have hls : l ≠ s := fun hls => h.1 (by rw [hp1, hls])
        simp [pyEqb, pyNum, hls]
      | intV n => simp [pyEqb, pyNum]
      | boolV b => simp [pyEqb, pyNum]
      | ratV q => simp [pyEqb, pyNum]
    simp only [List.find?, hp]
    exact ih h.2

theorem enum_encode_invalid (e : RegEntry) (tW : List (PyVal × Int))
    (hpre : e.writepre = some (.enumLookupW tW)) (s : String)
    (hfind : tW.find? (fun p => pyEqb p.1 (.strV s)) = none) :
    encode_registers e (.strV s) = .error (.valueError ("Invalid value")) := by
  simp [encode_registers, hpre, applyWritePre, dictLookupW, hfind, Except.map]

theorem write_config_invalid_of_entry (key : String) (e : RegEntry)
    (hkey : holdingLookup key = some e) (tW : List (PyVal × Int))
    (hpre : e.writepre = some (.enumLookupW tW)) (s : String)
    (hfind : tW.find? (fun p => pyEqb p.1 (.strV s)) = none) :
    write_config key (.strV s) = .error (.valueError ("Invalid value")) := by
  simp [write_config, hkey, enum_encode_invalid e tW hpre s hfind, Except.map]

/-- C6: for each of the ten enumerated holding entries, writing any label
outside the enumeration's domain fails with `ValueError("Invalid value")`
(the source's InvalidValue), and writing any label inside the domain and
decoding the resulting raw word returns the same label. -/
theorem enum_fidelity :
    ∀ name ∈ enumHoldingNames, ∃ e tW,
      holdingLookup name = some e ∧ e.writepre = some (.enumLookupW tW) ∧
      (∀ s : String, PyVal.strV s ∉ tW.map (fun p => p.1) →
        write_config name (.strV s) = .error (.valueError ("Invalid value"))) ∧
      (∀ v ∈ tW.map (fun p => p.1), write_readback name v = .ok v) := by
  intro name hname
  fin_cases hname <;>
    refine ⟨_, _, rfl, rfl, fun s hs => ?_, by decide⟩ <;>
    exact write_config_invalid_of_entry _ _ (by rfl) _ (by rfl) s (find_enumW_none _ s hs)

/-- Witness for C6 at the SafetyType entry. -/
theorem enum_fidelity_witness :
    ∃ e tW, holdingLookup ("SafetyType") = some e ∧
      e.writepre = some (.enumLookupW tW) ∧
      (∀ s : String, PyVal.strV s ∉ tW.map (fun p => p.1) →
        write_config ("SafetyType") (.strV s) = .error (.valueError ("Invalid value"))) ∧
      (∀ v ∈ tW.map (fun p => p.1), write_readback ("SafetyType") v = .ok v) :=
  enum_fidelity ("SafetyType") (by decide)

/-! ### HTTP gateway model -/

def CONTENT_TYPE_JSON : String := "application/json; charset=utf-8"
def CONTENT_TYPE_TEXT : String := "text/plain; charset=utf-8"
def CONTENT_TYPE_HTML : String := "text/html; charset=utf-8"

/-- `generate_index_html`: the static landing page, listing the writeable
keys (entries whose WritePreProcess is not None). -/
def generate_index_html : String :=
  (HoldingAndWriteRegisters.foldl
    (fun acc kv =>
      if kv.2.writepre.isSome then acc ++ ("<li>") ++ kv.1 ++ ("</li>") else acc)
    ("<!DOCTYPE html><html lang='en'><head><title>Growatt</title>" ++
     "<style>body\x7bfont-family:Arial,Helvetica,sans-serif;\x7d</style>" ++
     "<meta name=viewport content='width=device-width,initial-scale=1'>" ++
     "</head><body><h1>Growatt</h1><h2>View Data:</h2><ul>" ++
     "<li><a href='status' target='_blank'>System Status</a>" ++
     "<li><a href='config' target='_blank'>System Configuration</a></ul>" ++
     "<h2>Modify Configuration:</h2><form action='config' method='GET'>" ++
     "<input type='text' name='key' placeholder='Key'>" ++
     "<input type='text' name='value' placeholder='Value'>" ++
     "<input type='submit' value='Submit'>" ++
     "<input type='hidden' name='_method' value='PUT'></form>" ++
     "<p>Writeable keys:</p><ul>")) ++ ("</ul></body></html>")

/-- An HTTP response as observed on the wire: the status code, the headers
the handler sets (`send_response`'s automatic Server/Date headers are not
modelled), and the body actually written (`none` when suppressed because it
is empty or the request was HEAD). -/
structure Response where
  code : Nat
  headers : List (String × String)
  body : Option String
deriving DecidableEq, Repr

/-- `GrowattHTTPHandler.send_final_response`: appends an explicit
Content-Length header (`len(None)` raises TypeError — never reached by the
gateway's call sites, which all pass bytes), adds `Connection: close` when
absent, and writes the body unless it is falsy or the command is HEAD.
Bodies in this model are ASCII (json.dumps escapes non-ASCII), so the byte
length is the string length. -/
def send_final_response (cmd : String) (code : Nat)
    (headers : List (String × String)) (body : Option String) :
    Except PyExc Response :=
  match body with
  | none => .error .typeError
  | some b =>
    .ok { code := code
          headers := headers ++ [(("Content-Length"), toString b.length)] ++
            (if headers.any (fun p => p.1 == ("Connection")) then []
             else [(("Connection"), ("close"))])
          body := if b ≠ ("") ∧ cmd ≠ ("HEAD") then some b else none }

/-- `BaseHTTPRequestHandler.responses` (standard library reason-phrase
table), restricted to the codes this gateway can emit. -/
def responses : List (Nat × String × String) := [
  (200, ("OK"), ("Request fulfilled, document follows")),
  (400, ("Bad Request"), ("Bad request syntax or unsupported method")),
  (401, ("Unauthorized"), ("No permission -- see authorization schemes")),
  (404, ("Not Found"), ("Nothing matches the given URI")),
  (500, ("Internal Server Error"), ("Server got itself in trouble")),
  (501, ("Not Implemented"), ("Server does not support this operation"))]

/-- `json.dumps({"code": .., "message": .., "explain": ..}, indent=4)`,
assuming message and explain need no JSON string escaping (true of every
constant the gateway passes). -/
def render_envelope (code : Nat) (message explain : String) : String :=
  "\x7b\n    \"code\": " ++ toString code ++
  ",\n    \"message\": \"" ++ message ++
  "\",\n    \"explain\": \"" ++ explain ++ "\"\n\x7d"

/-- A body of the error-envelope shape `{code, message, explain}`. -/
def EnvelopeForm (s : String) : Prop :=
  ∃ code message explain, s = render_envelope code message explain

/-- `GrowattHTTPHandler.send_error`: defaults message/explain from the
reason-phrase table ("???" for unknown codes), attaches the JSON envelope
body for codes ≥ 200 outside {204, 205, 304}, and responds with JSON
Content-Type. -/
def send_error (cmd : String) (code : Nat) (message explain : Option String) :
    Except PyExc Response :=
  let pair := ((responses.find? (fun p => p.1 == code)).map (fun p => p.2)).getD
    ((("???"), ("???")))
  let msg := message.getD pair.1
  let expl := explain.getD pair.2
  let body : Option String :=
    if 200 ≤ code ∧ code ∉ [204, 205, 304] then
      some (render_envelope code msg expl)
    else none
  send_final_response cmd code [(("Content-Type"), CONTENT_TYPE_JSON)] body

/-- The stored credentials. -/
structure GrowattHTTPAuth where
  username : String
  password_hash : String
  password_salt : String
deriving DecidableEq, Repr

/-- `hash_password`, parameterized by the HMAC-SHA1 hex-digest primitive
(`hmac`/`hashlib`, standard-library collaborators): key = salt,
message = password. -/
def hash_password (hmac_sha1_hex : String → String → String)
    (password salt : String) : String :=
  hmac_sha1_hex salt password

/-- `GrowattHTTPHandler.check_auth`. -/
def check_auth (hmac_sha1_hex : String → String → String)
    (auth : GrowattHTTPAuth) (username password : String) : Bool :=
  username == auth.username &&
    hash_password hmac_sha1_hex password auth.password_salt == auth.password_hash

/-- Python `s.split(c, 1)` unpacked into exactly two parts: `none` models
the `ValueError("not enough values to unpack")` raised by
`a, b = s.split(c, 1)` when the separator is absent. -/
def split_once (s : String) (c : Char) : Option (String × String) :=
  if s.data.contains c then
    some (String.mk (s.data.takeWhile (fun x => x ≠ c)),
      String.mk ((s.data.dropWhile (fun x => x ≠ c)).drop 1))
  else none

/-- `validate_basic_auth_header`, parameterized by the composed
`base64.b64decode(·).decode("utf-8")` primitive (standard library): its
failure modes are `binasciiError` (caught → False) and
`unicodeDecodeError` (uncaught).  A header without a space raises an
uncaught ValueError from the tuple unpacking. -/
def validate_basic_auth_header (hmac_sha1_hex : String → String → String)
    (b64_utf8 : String → Except PyExc String) (auth : GrowattHTTPAuth)
    (header : String) : Except PyExc Bool :=
  match split_once header ' ' with
  | none => .error (.valueError ("not enough values to unpack (expected 2, got 1)"))
  | some (auth_type, auth_string) =>
    if str_lower auth_type ≠ ("basic") then .ok false
    else
      match b64_utf8 auth_string with
      | .error .binasciiError => .ok false
      | .error e => .error e
      | .ok decoded =>
        if ¬ decoded.data.contains ':' then .ok false
        else
          match split_once decoded ':' with
          | none => .ok false
          | some (u, p) => .ok (check_auth hmac_sha1_hex auth u p)

/-- Outcome of the `auth_required` gate. -/
inductive AuthOutcome where
  | proceed
  | rejected (r : Response)
  | exception (e : PyExc)
deriving DecidableEq, Repr

/-- The 401 challenge response the `auth_required` wrapper sends. -/
def unauthorized_response (cmd : String) : Except PyExc Response :=
  send_final_response cmd 401
    [(("Content-Type"), CONTENT_TYPE_TEXT),
     (("WWW-Authenticate"), ("Basic realm=\"Growatt\""))]
    (some ("Unauthorized"))

/-- The `auth_required` decorator over the request's Authorization header:
run the wrapped handler only when the header is present and validates;
otherwise send the 401 challenge.  An exception during validation
propagates out of the wrapper. -/
def auth_gate (hmac_sha1_hex : String → String → String)
    (b64_utf8 : String → Except PyExc String) (auth : GrowattHTTPAuth)
    (cmd : String) (authHeader : Option String) : AuthOutcome :=
  match authHeader with
  | none =>
    match unauthorized_response cmd with
    | .ok r => .rejected r
    | .error e => .exception e
  | some h =>
    match validate_basic_auth_header hmac_sha1_hex b64_utf8 auth h with
    | .ok true => .proceed
    | .ok false =>
      match unauthorized_response cmd with
      | .ok r => .rejected r
      | .error e => .exception e
    | .error e => .exception e

/-- The colon-split credential check performed once base64+UTF-8 decoding
succeeded: `False` without a colon, else `check_auth(user, password)`. -/
def credentials_ok (hmac_sha1_hex : String → String → String)
    (auth : GrowattHTTPAuth) (s : String) : Bool :=
  match split_once s ':' with
  | none => false
  | some (u, p) => check_auth hmac_sha1_hex auth u p

/-- Transport outcomes for the guarded reads the GET handlers perform. -/
structure Device where
  input_read : Except PyExc (List Nat)
  holding_read1 : Except PyExc (List Nat)
  holding_read2 : Except PyExc (List Nat)
deriving DecidableEq, Repr

/-- What a GET handler invocation does, as observed from outside. -/
inductive GetOutcome where
  | response (r : Response)
  | putDispatch
  | finishedNoResponse
  | exception (e : PyExc)
deriving DecidableEq, Repr

def toOutcome : Except PyExc Response → GetOutcome
  | .ok r => .response r
  | .error e => .exception e

/-- `parse_qs` output lookup (urllib collaborator: present keys map to
non-empty value lists). -/
def qsLookup (qs : List (String × List String)) (key : String) :
    Option (List String) :=
  (qs.find? (fun p => p.1 == key)).map (fun p => p.2)

/-- Simplified `json.dumps(info, indent=4)` for the status/config reports;
no theorem inspects this rendering. -/
def json_value_render : PyVal → String
  | .intV n => toString n
  | .boolV b => if b then ("true") else ("false")
  | .strV s => ("\"") ++ s ++ ("\"")
  | .ratV q => toString q

def json_render (info : List (String × PyVal)) : String :=
  ("\x7b\n") ++ String.intercalate (",\n")
    (info.map (fun kv => ("    \"") ++ kv.1 ++ ("\": ") ++ json_value_render kv.2)) ++
  ("\n\x7d")

/-- `GrowattHTTPHandler.do_GET` over the parsed path and query string and
the device transport outcomes.  Note the `_method=GET` branch: the match
arm is `pass`, after which control reaches the `return` closing the
`if "_method" in qs:` block, so no response at all is sent.  In the /status
and /config branches only ModbusException is caught (mapped to a 500
envelope); any other exception propagates. -/
def do_GET (dev : Device) (path : String) (qs : List (String × List String)) :
    GetOutcome :=
  match qsLookup qs ("_method") with
  | some [] => .exception .indexError
  | some (m :: _) =>
    let meth := str_upper m
    if meth = ("PUT") then .putDispatch
    else if meth = ("GET") then .finishedNoResponse
    else if meth = ("HEAD") then
      toOutcome (send_error ("GET") 400
        (some ("HEAD method not supported for _method")) none)
    else
      toOutcome (send_error ("GET") 501
        (some (("Unsupported method ('") ++ meth ++ ("')"))) none)
  | none =>
    if path = ("/") then
      toOutcome (send_final_response ("GET") 200
        [(("Content-Type"), CONTENT_TYPE_HTML)] (some generate_index_html))
    else if path = ("/status") then
      match read_status dev.input_read with
      | .ok info =>
        toOutcome (send_final_response ("GET") 200
          [(("Content-Type"), CONTENT_TYPE_JSON)] (some (json_render info)))
      | .error (.modbusError msg) =>
        toOutcome (send_error ("GET") 500 (some msg) none)
      | .error e => .exception e
    else if path = ("/config") then
      match read_config dev.holding_read1 dev.holding_read2 with
      | .ok info =>
        toOutcome (send_final_response ("GET") 200
          [(("Content-Type"), CONTENT_TYPE_JSON)] (some (json_render info)))
      | .error (.modbusError msg) =>
        toOutcome (send_error ("GET") 500 (some msg) none)
      | .error e => .exception e
    else
      toOutcome (send_error ("GET") 404 (some ("Not Found")) none)

/-! ### Claim C3: error responses -/

theorem render_envelope_data (code : Nat) (m e : String) :
    ∃ t, (render_envelope code m e).data = Char.ofNat 123 :: t := by
  rw [render_envelope]
  simp only [String.data_append, List.cons_append]
  exact ⟨_, rfl⟩

theorem render_envelope_ne_empty (code : Nat) (m e : String) :
    render_envelope code m e ≠ ("") := by
  intro h
  obtain ⟨t, ht⟩ := render_envelope_data code m e
  rw [h] at ht
  have hnil : (("") : String).data = [] := rfl
  rw [hnil] at ht
  exact List.noConfusion ht

theorem not_envelope_unauthorized : ¬ EnvelopeForm ("Unauthorized") := by
  rintro ⟨c, m, e, h⟩
  obtain ⟨t, ht⟩ := render_envelope_data c m e
  have hdata : (("Unauthorized") : String).data = Char.ofNat 123 :: t := by rw [h, ht]
  have hhead : (("Unauthorized") : String).data.head? = some (Char.ofNat 123) := by
    rw [hdata]; rfl
  exact absurd hhead (by decide)

theorem send_final_response_some (cmd : String) (code : Nat)
    (hdrs : List (String × String)) (b : String) (hb : b ≠ (""))
    (hcmd : cmd ≠ ("HEAD"))
    (hconn : hdrs.any (fun p => p.1 == ("Connection")) = false) :
    send_final_response cmd code hdrs (some b) = .ok
      { code := code,
        headers := hdrs ++ [(("Content-Length"), toString b.length)] ++
          [(("Connection"), ("close"))],
        body := some b } := by
  simp only [send_final_response, hconn, Bool.false_eq_true, if_false,
    if_pos (And.intro hb hcmd)]

theorem send_error_ok (cmd : String) (code : Nat) (message explain : Option String)
    (short long : String)
    (hfind : responses.find? (fun p => p.1 == code) = some (code, short, long))
    (hbody : 200 ≤ code ∧ code ∉ [204, 205, 304])
    (hcmd : cmd ≠ ("HEAD")) :
    send_error cmd code message explain = .ok
      { code := code,
        headers := [(("Content-Type"), CONTENT_TYPE_JSON)] ++
          [(("Content-Length"),
            toString (render_envelope code (message.getD short) (explain.getD long)).length)] ++
          [(("Connection"), ("close"))],
        body := some (render_envelope code (message.getD short) (explain.getD long)) } := by
  simp only [send_error, hfind, Option.map_some', Option.getD_some, if_pos hbody]
  exact send_final_response_some cmd code _ _ (render_envelope_ne_empty _ _ _) hcmd rfl

/-- C3 (amended): every error response produced through `send_error` — the
gateway's 400, 404, 500 and 501 replies — carries the JSON envelope
`{code, message, explain}` as its body together with an explicit
Content-Length header; the 401 auth rejection also carries an explicit
Content-Length, but its body is the plain text "Unauthorized" with
Content-Type text/plain, not the JSON envelope. -/
theorem send_error_envelope_content_length (cmd : String) (code : Nat)
    (message explain : Option String)
    (hcode : code ∈ [400, 404, 500, 501]) (hcmd : cmd ≠ ("HEAD")) :
    (∃ m e, send_error cmd code message explain = .ok
      { code := code,
        headers := [(("Content-Type"), CONTENT_TYPE_JSON)] ++
          [(("Content-Length"), toString (render_envelope code m e).length)] ++
          [(("Connection"), ("close"))],
        body := some (render_envelope code m e) }) ∧
    (unauthorized_response cmd = .ok
      { code := 401,
        headers := [(("Content-Type"), CONTENT_TYPE_TEXT),
            (("WWW-Authenticate"), ("Basic realm=\"Growatt\""))] ++
          [(("Content-Length"), toString (("Unauthorized") : String).length)] ++
          [(("Connection"), ("close"))],
        body := some ("Unauthorized") }) := by
  constructor
  · fin_cases hcode
    · exact ⟨_, _, send_error_ok cmd 400 message explain ("Bad Request")
        ("Bad request syntax or unsupported method") (by rfl) (by decide) hcmd⟩
    · exact ⟨_, _, send_error_ok cmd 404 message explain ("Not Found")
        ("Nothing matches the given URI") (by rfl) (by decide) hcmd⟩
    · exact ⟨_, _, send_error_ok cmd 500 message explain ("Internal Server Error")
        ("Server got itself in trouble") (by rfl) (by decide) hcmd⟩
    · exact ⟨_, _, send_error_ok cmd 501 message explain ("Not Implemented")
        ("Server does not support this operation") (by rfl) (by decide) hcmd⟩
  · exact send_final_response_some cmd 401 _ _ (by decide) hcmd rfl

/-- Witness for C3's amended statement at `cmd = "GET"`, `code = 404`. -/
theorem send_error_envelope_content_length_witness :
    (∃ m e, send_error ("GET") 404 none none = .ok
      { code := 404,
        headers := [(("Content-Type"), CONTENT_TYPE_JSON)] ++
          [(("Content-Length"), toString (render_envelope 404 m e).length)] ++
          [(("Connection"), ("close"))],
        body := some (render_envelope 404 m e) }) ∧
    (unauthorized_response ("GET") = .ok
      { code := 401,
        headers := [(("Content-Type"), CONTENT_TYPE_TEXT),
            (("WWW-Authenticate"), ("Basic realm=\"Growatt\""))] ++
          [(("Content-Length"), toString (("Unauthorized") : String).length)] ++
          [(("Connection"), ("close"))],
        body := some ("Unauthorized") }) :=
  send_error_envelope_content_length ("GET") 404 none none (by decide) (by decide)

/-- C3 counterexample: the 401 auth rejection's body is the plain text
"Unauthorized" — not a JSON body of the envelope form. -/
theorem unauthorized_body_not_envelope_cex :
    (unauthorized_response ("GET")).map (fun r => r.body) = .ok (some ("Unauthorized")) ∧
    ¬ EnvelopeForm ("Unauthorized") :=
  ⟨by decide, not_envelope_unauthorized⟩

/-! ### Claim C7: Basic authentication -/

theorem validate_decoded (hmac_sha1_hex : String → String → String)
    (b64_utf8 : String → Except PyExc String) (auth : GrowattHTTPAuth)
    (h ty rest s : String)
    (hsplit : split_once h ' ' = some (ty, rest))
    (hty : str_lower ty = ("basic")) (hdec : b64_utf8 rest = .ok s) :
    validate_basic_auth_header hmac_sha1_hex b64_utf8 auth h =
      .ok (credentials_ok hmac_sha1_hex auth s) := by
  simp only [validate_basic_auth_header, hsplit, hty, hdec]
  rw [if_neg (by simp)]
  have hmem : ∀ (c : Char) (l : List Char), l.contains c = true ↔ c ∈ l := by
    intro c l
    rw [List.contains_iff_exists_mem_beq]
    constructor
    · rintro ⟨a, ha, hb⟩
      rw [beq_iff_eq] at hb
      rw [hb]
      exact ha
    · intro hcl
      exact ⟨c, hcl, by rw [beq_iff_eq]⟩
  by_cases hc : s.data.contains ':' = true
  · rw [if_neg (by simp [(hmem _ _).mp hc])]
    rw [credentials_ok]
    cases hsp : split_once s ':' with
    | none => simp [hsp]
    | some up => simp [hsp]
  · rw [if_pos hc]
    rw [credentials_ok, split_once, if_neg hc]

/-- C7 (amended): for any HMAC primitive and base64+UTF-8 decode primitive —
a missing Authorization header, a spaced header with a non-Basic scheme, a
Basic header whose payload fails base64 decoding, and a successfully decoded
payload without matching credentials are all answered with the 401 response
carrying the WWW-Authenticate challenge; access is granted exactly when the
decoded payload splits at a colon into the stored username and a password
whose HMAC-SHA1 (key = salt) equals the stored hash.  (A header without any
space instead raises an uncaught ValueError — see the counterexample.) -/
theorem auth_gate_behavior (hmac_sha1_hex : String → String → String)
    (b64_utf8 : String → Except PyExc String) (auth : GrowattHTTPAuth)
    (cmd : String) :
    (∃ r, unauthorized_response cmd = .ok r ∧ r.code = 401 ∧
      ((("WWW-Authenticate"), ("Basic realm=\"Growatt\"")) ∈ r.headers) ∧
      auth_gate hmac_sha1_hex b64_utf8 auth cmd none = .rejected r) ∧
    (∀ h ty rest, split_once h ' ' = some (ty, rest) →
      str_lower ty ≠ ("basic") →
      ∃ r, unauthorized_response cmd = .ok r ∧
        ((("WWW-Authenticate"), ("Basic realm=\"Growatt\"")) ∈ r.headers) ∧
        auth_gate hmac_sha1_hex b64_utf8 auth cmd (some h) = .rejected r) ∧
    (∀ h ty rest, split_once h ' ' = some (ty, rest) →
      str_lower ty = ("basic") → b64_utf8 rest = .error .binasciiError →
      ∃ r, unauthorized_response cmd = .ok r ∧
        ((("WWW-Authenticate"), ("Basic realm=\"Growatt\"")) ∈ r.headers) ∧
        auth_gate hmac_sha1_hex b64_utf8 auth cmd (some h) = .rejected r) ∧
    (∀ h ty rest s, split_once h ' ' = some (ty, rest) →
      str_lower ty = ("basic") → b64_utf8 rest = .ok s →
      (auth_gate hmac_sha1_hex b64_utf8 auth cmd (some h) = .proceed ↔
        credentials_ok hmac_sha1_hex auth s = true) ∧
      (credentials_ok hmac_sha1_hex auth s = false →
        ∃ r, unauthorized_response cmd = .ok r ∧
          ((("WWW-Authenticate"), ("Basic realm=\"Growatt\"")) ∈ r.headers) ∧
          auth_gate hmac_sha1_hex b64_utf8 auth cmd (some h) = .rejected r)) ∧
    (∀ s, credentials_ok hmac_sha1_hex auth s = true ↔
      ∃ u p, split_once s ':' = some (u, p) ∧ u = auth.username ∧
        hmac_sha1_hex auth.password_salt p = auth.password_hash) := by
  obtain ⟨r0, hr0⟩ : ∃ r, unauthorized_response cmd = .ok r := ⟨_, rfl⟩
  have hchal : (("WWW-Authenticate"), ("Basic realm=\"Growatt\"")) ∈ r0.headers := by
    have := Except.ok.inj hr0
    rw [← this]
    simp [unauthorized_response, send_final_response]
  have hcode0 : r0.code = 401 := by
    have := Except.ok.inj hr0
    rw [← this]
  refine ⟨⟨r0, hr0, hcode0, hchal, ?_⟩, ?_, ?_, ?_, ?_⟩
  · simp [auth_gate, hr0]
  · intro h ty rest hsplit hty
    refine ⟨r0, hr0, hchal, ?_⟩
    simp only [auth_gate, validate_basic_auth_header, hsplit, if_pos hty, hr0]
  · intro h ty rest hsplit hty hdec
    refine ⟨r0, hr0, hchal, ?_⟩
    simp only [auth_gate, validate_basic_auth_header, hsplit, hty, hdec]
    rw [if_neg (by simp)]
    simp [hr0]
  · intro h ty rest s hsplit hty hdec
    have hval := validate_decoded hmac_sha1_hex b64_utf8 auth h ty rest s hsplit hty hdec
    constructor
    · cases hcred : credentials_ok hmac_sha1_hex auth s with
      | true => simp [auth_gate, hval, hcred]
      | false => simp [auth_gate, hval, hcred, hr0]
    · intro hcred
      refine ⟨r0, hr0, hchal, ?_⟩
      simp [auth_gate, hval, hcred, hr0]
  · intro s
    rw [credentials_ok]
    cases hsp : split_once s ':' with
    | none => simp [hsp]
    | some up =>
      obtain ⟨u, p⟩ := up
      simp only [hsp, Option.some.injEq, Prod.mk.injEq, check_auth, hash_password,
        Bool.and_eq_true, beq_iff_eq]
      constructor
      · rintro ⟨h1, h2⟩
        exact ⟨u, p, ⟨rfl, rfl⟩, h1, h2⟩
      · rintro ⟨u', p', ⟨h1, h2⟩, h3, h4⟩
        subst h1; subst h2
        exact ⟨h3, h4⟩

/-- Witness for C7's amended statement: concrete primitives and credentials
under which a decoded `u:p` payload is granted access. -/
theorem auth_gate_behavior_witness :
    auth_gate (fun _ _ => ("h")) (fun _ => .ok ("u:p")) ⟨("u"), ("h"), ("s")⟩ ("GET")
      (some ("Basic dTpw")) = .proceed := by
  have hmain := (auth_gate_behavior (fun _ _ => ("h")) (fun _ => .ok ("u:p"))
    ⟨("u"), ("h"), ("s")⟩ ("GET")).2.2.2.1 ("Basic dTpw") ("Basic") ("dTpw") ("u:p")
    (by rfl) (by rfl) (by rfl)
  exact hmain.1.mpr (by rfl)

/-- C7 counterexample: the malformed Authorization header "Basic" (no space)
makes the `split(" ", 1)` tuple unpacking raise ValueError, which the
wrapper does not catch: the outcome is an escaped exception, not a 401. -/
theorem auth_no_space_uncaught_cex :
    auth_gate (fun _ _ => ("")) (fun _ => .ok ("")) ⟨("u"), ("h"), ("s")⟩ ("GET")
      (some ("Basic")) =
      .exception (.valueError ("not enough values to unpack (expected 2, got 1)")) := by
  rfl

/-! ### Claim C8: the `_method` query override -/

/-- C8: for an authenticated GET whose query string carries `_method`:
a PUT value (case-insensitively) re-dispatches to the PUT handler, a HEAD
value is rejected with 400, and any other non-GET value is rejected with
501 — both rejections through `send_error`'s JSON envelope. -/
theorem method_override_dispatch (dev : Device) (path : String)
    (qs : List (String × List String)) (m : String) (rest : List String)
    (hm : qsLookup qs ("_method") = some (m :: rest)) :
    (str_upper m = ("PUT") → do_GET dev path qs = .putDispatch) ∧
    (str_upper m = ("HEAD") → do_GET dev path qs =
      toOutcome (send_error ("GET") 400
        (some ("HEAD method not supported for _method")) none)) ∧
    (str_upper m ≠ ("PUT") → str_upper m ≠ ("GET") → str_upper m ≠ ("HEAD") →
      do_GET dev path qs =
        toOutcome (send_error ("GET") 501
          (some (("Unsupported method ('") ++ str_upper m ++ ("')"))) none)) := by
  refine ⟨fun h1 => ?_, fun h1 => ?_, fun h1 h2 h3 => ?_⟩
  · simp [do_GET, hm, h1]
  · simp [do_GET, hm, h1]
  · simp only [do_GET, hm]
    rw [if_neg h1, if_neg h2, if_neg h3]

/-- Witness for C8: `_method=put` re-dispatches as PUT. -/
theorem method_override_dispatch_witness :
    do_GET ⟨.ok [], .ok [], .ok []⟩ ("/status") [(("_method"), [("put")])] =
      .putDispatch :=
  (method_override_dispatch ⟨.ok [], .ok [], .ok []⟩ ("/status")
    [(("_method"), [("put")])] ("put") [] (by rfl)).1 (by rfl)

/-! ### Claim C9: exception translation in the GET handlers -/

/-- C9 (amended): in GET /status and GET /config only ModbusException is
translated — a transport ModbusException yields the 500 JSON envelope via
`send_error`, while any other exception raised while serving the request
(for example the KeyError from a SystemStatus raw word outside the
SystemStatusR enumeration) propagates out of the handler uncaught, with no
response sent. -/
theorem status_config_error_translation (dev : Device) :
    (∀ msg, read_status dev.input_read = .error (.modbusError msg) →
      do_GET dev ("/status") [] =
        toOutcome (send_error ("GET") 500 (some msg) none)) ∧
    (∀ e, read_status dev.input_read = .error e → (∀ msg, e ≠ .modbusError msg) →
      do_GET dev ("/status") [] = .exception e) ∧
    (∀ msg, read_config dev.holding_read1 dev.holding_read2 =
        .error (.modbusError msg) →
      do_GET dev ("/config") [] =
        toOutcome (send_error ("GET") 500 (some msg) none)) ∧
    (∀ e, read_config dev.holding_read1 dev.holding_read2 = .error e →
      (∀ msg, e ≠ .modbusError msg) →
      do_GET dev ("/config") [] = .exception e) := by
  refine ⟨?_, ?_, ?_, ?_⟩
  · intro msg h
    simp [do_GET, qsLookup, h]
  · intro e h hne
    cases e <;> simp [do_GET, qsLookup, h]
    exact absurd rfl (hne _)
  · intro msg h
    simp [do_GET, qsLookup, h]
  · intro e h hne
    cases e <;> simp [do_GET, qsLookup, h]
    exact absurd rfl (hne _)

/-- Witness for C9's amended statement: a transport ModbusException on the
input-register read maps to the 500 envelope. -/
theorem status_config_error_translation_witness :
    do_GET ⟨.error (.modbusError ("boom")), .ok [], .ok []⟩ ("/status") [] =
      toOutcome (send_error ("GET") 500 (some ("boom")) none) :=
  (status_config_error_translation
    ⟨.error (.modbusError ("boom")), .ok [], .ok []⟩).1 ("boom") (by rfl)

/-- C9 counterexample: a healthy transport returning SystemStatus raw word
14 (outside SystemStatusR) makes GET /status raise KeyError; the outcome is
an escaped exception — no 500 envelope (nor any response) is produced. -/
theorem status_keyerror_uncaught_cex :
    do_GET ⟨.ok (14 :: List.replicate 90 0), .ok [], .ok []⟩ ("/status") [] =
      .exception (.keyError ("14")) := by
  decide

end Growatt
